import Mathlib

/-!
# Certificate numbering and invoice lifecycle of `traktor` (src/main.go)

A shallow embedding of the request handlers of `src/main.go` and of the SQL
statements they send to the relational store.

Modelling conventions

* The store is a value of type `DB`: three tables, each a list of rows in the
  order in which a sequential scan returns them, and the two serial
  counters.  A handler is a function from the store (and its request) to a
  response and the store after the call.
* `sql.NullString` and `sql.NullInt64` are `Option String` and `Option Int`
  (`Valid = false` is `none`).
* Every storage call of a handler takes an argument of type `Option String`:
  `some e` means that the driver reports the error `e` for that call (lost
  connection, failed statement), `none` that the call runs.  Handlers with
  several calls take a function from the position of the call to that
  argument.
* `time.Now()` and the server side `NOW()` are arguments of the handlers.
* The table definitions are not part of the source file: columns carry no
  constraint and no default other than the serial id, and text parameters are
  Unicode strings.  `jshshir` is the key of `students`, so a join finds at
  most one student for a reference.
* `ORDER BY created_at DESC` compares the text of the timestamps, and
  `ILIKE` compares letters after a case folding that is an argument of the
  search.
* A concurrent execution is a schedule of the steps of the calls, each
  storage statement being one atomic step.
-/

namespace Traktor

/-! ## Go and SQL primitives -/

/-- Errors that a storage call hands back to the handler. -/
inductive DbError where
  | driver (msg : String)
  | noRows
  | scanNull (index : Nat) (name : String) (kind : String)
  | outOfRange (text : String)
deriving DecidableEq, Repr

/-- The text of `err.Error()`. -/
def DbError.Error : DbError → String
  | .driver msg => msg
  | .noRows => "sql: no rows in result set"
  | .scanNull index name kind =>
    "sql: Scan error on column index " ++ toString index ++ ", name \"" ++ name ++
      "\": converting NULL to " ++ kind ++ " is unsupported"
  | .outOfRange text => "pq: value \"" ++ text ++ "\" is out of range for type integer"

/-- What a handler writes: `respondJSON` with a body, or `http.Error`. -/
inductive Response (α : Type) where
  | ok (body : α)
  | error (code : Nat) (msg : String)
deriving DecidableEq, Repr

/-- The HTTP status of a response. -/
def Response.code {α : Type} : Response α → Nat
  | .ok _ => 200
  | .error c _ => c

/-- Go `unicode.IsSpace`. -/
def isSpace (c : Char) : Bool :=
  let n := c.toNat
  n = 0x09 || n = 0x0A || n = 0x0B || n = 0x0C || n = 0x0D || n = 0x20 ||
  n = 0x85 || n = 0xA0 || n = 0x1680 || (0x2000 ≤ n && n ≤ 0x200A) ||
  n = 0x2028 || n = 0x2029 || n = 0x202F || n = 0x205F || n = 0x3000

/-- Go `strings.TrimSpace`. -/
def TrimSpace (s : String) : String :=
  String.mk ((s.data.dropWhile isSpace).reverse.dropWhile isSpace).reverse

/-- Go integer addition on `int64`: the sum wraps around. -/
def wrapInt64 (n : Int) : Int :=
  (n + 9223372036854775808) % 18446744073709551616 - 9223372036854775808

/-- Go `fmt.Sprintf("%0wd", n)`: decimal digits, padded with zeros to width
`w`, the sign counted in the width and written before the zeros. -/
def sprintfZeroPad (w : Nat) (n : Int) : String :=
  if n < 0 then
    String.mk ('-' :: List.leftpad (w - 1) '0' (toString n.natAbs).data)
  else
    String.mk (List.leftpad w '0' (toString n.toNat).data)

/-- The POSIX regular expression `^[0-9]+$`. -/
def isNumericText (s : String) : Bool :=
  !s.data.isEmpty && s.data.all (fun c => decide ('0' ≤ c) && decide (c ≤ '9'))

/-- The value of a string of decimal digits. -/
def decimalValue (cs : List Char) : Nat :=
  cs.foldl (fun a c => 10 * a + (c.toNat - 48)) 0

/-- SQL `CAST(text AS INTEGER)` on a string of digits: the type is 32 bits
wide and a larger value is an error. -/
def castInteger (s : String) : Except DbError Int :=
  if decimalValue s.data ≤ 2147483647 then .ok (decimalValue s.data : Int)
  else .error (.outOfRange s)

/-- The cast applied to every selected row; the first failure aborts the
statement. -/
def castAll : List String → Except DbError (List Int)
  | [] => .ok []
  | s :: ss =>
    match castInteger s with
    | .error e => .error e
    | .ok v =>
      match castAll ss with
      | .error e => .error e
      | .ok vs => .ok (v :: vs)

/-- SQL `MAX`: NULL over no rows. -/
def sqlMax : List Int → Option Int
  | [] => none
  | x :: xs =>
    match sqlMax xs with
    | none => some x
    | some m => some (max x m)

/-- `rows.Scan` of the column at `index` into a Go `string`: NULL is an
error. -/
def scanString (index : Nat) (name : String) (v : Option String) : Except DbError String :=
  match v with
  | some s => .ok s
  | none => .error (.scanNull index name "string")

/-- `rows.Scan` of the column at `index` into a Go `int`: NULL is an
error. -/
def scanInt (index : Nat) (name : String) (v : Option Int) : Except DbError Int :=
  match v with
  | some n => .ok n
  | none => .error (.scanNull index name "int")

/-! ## Data model -/

/-- Row of `students`. -/
structure Student where
  JSHSHIR : String
  FullName : String
  BirthDate : String
  Phone : String
deriving DecidableEq, Repr

/-- Row of `documents`, as `Document` of the source. -/
structure Document where
  ID : Int
  Title : Option String
  StudentJSHSHIR : Option String
  StudentName : Option String
  CourseStart : Option String
  CourseEnd : Option String
  ExamDate : Option String
  Categories : Option String
  CourseHours : Option Int
  Grade1 : Option Int
  Grade2 : Option Int
  CertificateNo : Option String
  Status : Option String
  CommissionNo : Option String
  DirectorName : Option String
  CreatedAt : Option String
deriving DecidableEq, Repr

/-- The JSON view of a document. -/
structure DocumentOutput where
  ID : Int
  Title : String
  StudentJSHSHIR : String
  StudentName : String
  CourseStart : String
  CourseEnd : String
  ExamDate : String
  Categories : String
  CourseHours : Int
  Grade1 : Int
  Grade2 : Int
  CertificateNo : String
  Status : String
  CommissionNo : String
  DirectorName : String
  CreatedAt : String
deriving DecidableEq, Repr

/-- The zero value of `DocumentOutput`. -/
def DocumentOutput.zero : DocumentOutput :=
  ⟨0, "", "", "", "", "", "", "", 0, 0, 0, "", "", "", "", ""⟩

/-- A document with the joined student fields and the QR image. -/
structure DocumentDetail where
  Output : DocumentOutput
  StudentBirthDate : String
  StudentPhone : String
  QRCodeBase64 : String
deriving DecidableEq, Repr

/-- The decoded body of a document request. -/
structure DocumentInput where
  Title : String
  StudentJSHSHIR : String
  StudentName : String
  CourseStart : String
  CourseEnd : String
  ExamDate : String
  Categories : String
  CourseHours : Int
  Grade1 : Int
  Grade2 : Int
  CertificateNo : String
  Status : String
  CommissionNo : String
  DirectorName : String
deriving DecidableEq, Repr

/-- Row of `invoices`.  The amount is the value of the `float64`. -/
structure InvoiceRow where
  ID : Int
  StudentJSHSHIR : String
  StudentName : String
  Description : String
  Amount : ℚ
  Status : String
  InvoiceNumber : Option String
  CreatedAt : String
  IssueDate : Option String
  DueDate : Option String
  PaymentDate : Option String
deriving DecidableEq, Repr

/-- The relational store. -/
structure DB where
  students : List Student
  documents : List Document
  invoices : List InvoiceRow
  documentsSeq : Nat
  invoicesSeq : Nat
deriving DecidableEq, Repr

/-! ## Helpers of the source -/

/-- `getStringValue`. -/
def getStringValue (ns : Option String) : String :=
  match ns with
  | some s => s
  | none => ""

/-- `getIntValue`. -/
def getIntValue (ni : Option Int) : Int :=
  match ni with
  | some n => n
  | none => 0

/-- `convertDocumentToOutput`. -/
def convertDocumentToOutput (doc : Document) : DocumentOutput where
  ID := doc.ID
  Title := getStringValue doc.Title
  StudentJSHSHIR := getStringValue doc.StudentJSHSHIR
  StudentName := getStringValue doc.StudentName
  CourseStart := getStringValue doc.CourseStart
  CourseEnd := getStringValue doc.CourseEnd
  ExamDate := getStringValue doc.ExamDate
  Categories := getStringValue doc.Categories
  CourseHours := getIntValue doc.CourseHours
  Grade1 := getIntValue doc.Grade1
  Grade2 := getIntValue doc.Grade2
  CertificateNo := getStringValue doc.CertificateNo
  Status := getStringValue doc.Status
  CommissionNo := getStringValue doc.CommissionNo
  DirectorName := getStringValue doc.DirectorName
  CreatedAt := getStringValue doc.CreatedAt

/-! ## Numbering allocator -/

/-- The certificate numbers selected by
`WHERE certificate_number ~ '^[0-9]+$'`, in scan order. -/
def numericCertificates (docs : List Document) : List String :=
  docs.filterMap (fun d =>
    match d.CertificateNo with
    | some c => if isNumericText c then some c else none
    | none => none)

/-- The query of `getNextCertificateNumber`:
`SELECT MAX(CAST(certificate_number AS INTEGER)) FROM documents WHERE ...`. -/
def selectMaxCertificate (flt : Option String) (db : DB) : Except DbError (Option Int) :=
  match flt with
  | some e => .error (.driver e)
  | none =>
    match castAll (numericCertificates db.documents) with
    | .error e => .error e
    | .ok vs => .ok (sqlMax vs)

/-- `getNextCertificateNumber`. -/
def getNextCertificateNumber (flt : Option String) (db : DB) : Except DbError String :=
  match selectMaxCertificate flt db with
  | .error e => .error e
  | .ok none => .ok "0001"
  | .ok (some maxNumber) => .ok (sprintfZeroPad 4 (wrapInt64 (maxNumber + 1)))

/-- Go `strconv.Atoi`: an optional sign, then decimal digits, the value in
the range of `int`. -/
def Atoi (s : String) : Option Int :=
  let split : Bool × List Char :=
    match s.data with
    | '-' :: r => (true, r)
    | '+' :: r => (false, r)
    | r => (false, r)
  let digits := split.2
  if digits.isEmpty || !digits.all (fun c => decide ('0' ≤ c) && decide (c ≤ '9')) then none
  else
    let n : Int := if split.1 then -(decimalValue digits : Int) else (decimalValue digits : Int)
    if -9223372036854775808 ≤ n ∧ n ≤ 9223372036854775807 then some n else none

/-- The civil date (year, month, day) of day number `z`, counted from
1970-01-01. -/
def civilFromDays (z : Nat) : Nat × Nat × Nat :=
  let z1 := z + 719468
  let era := z1 / 146097
  let doe := z1 % 146097
  let yoe := (doe - doe / 1460 + doe / 36524 - doe / 146096) / 365
  let doy := doe - (365 * yoe + yoe / 4 - yoe / 100)
  let mp := (5 * doy + 2) / 153
  let d := doy - (153 * mp + 2) / 5 + 1
  let m := if mp < 10 then mp + 3 else mp - 9
  let y := if m ≤ 2 then yoe + era * 400 + 1 else yoe + era * 400
  (y, m, d)

/-- Go `t.Format("2006-01-02")` for an instant whose local date has day
number `z`. -/
def formatDate (z : Nat) : String :=
  let ymd := civilFromDays z
  sprintfZeroPad 4 ymd.1 ++ "-" ++ sprintfZeroPad 2 ymd.2.1 ++ "-" ++ sprintfZeroPad 2 ymd.2.2

/-! ## Document manager -/

/-- The body of a successful `documentCreate`. -/
structure DocumentCreateResponse where
  status : String
  message : String
  certificate_number : String
  commission_number : String
deriving DecidableEq, Repr

/-- The body of a successful `documentUpdate` or `documentDelete`. -/
structure DocumentWriteResponse where
  status : String
  message : String
  id : Int
  rows_affected : Nat
deriving DecidableEq, Repr

/-- `SELECT EXISTS(SELECT 1 FROM students WHERE jshshir=$1)`. -/
def studentExists (flt : Option String) (db : DB) (jshshir : String) : Except DbError Bool :=
  match flt with
  | some e => .error (.driver e)
  | none => .ok (db.students.any (fun s => decide (s.JSHSHIR = jshshir)))

/-- `SELECT MAX(id) FROM documents`, scanned into a `sql.NullInt64` whose
scan error is dropped: after a failed call the value is still invalid. -/
def selectMaxDocumentID (flt : Option String) (db : DB) : Option Int :=
  match flt with
  | some _ => none
  | none => sqlMax (db.documents.map (fun d => d.ID))

/-- The row written by the `INSERT` of `documentCreate`. -/
def insertedDocument (id : Int) (now : String) (input : DocumentInput) : Document where
  ID := id
  Title := some input.Title
  StudentJSHSHIR := some input.StudentJSHSHIR
  StudentName := some input.StudentName
  CourseStart := some input.CourseStart
  CourseEnd := some input.CourseEnd
  ExamDate := some input.ExamDate
  Categories := some input.Categories
  CourseHours := some input.CourseHours
  Grade1 := some input.Grade1
  Grade2 := some input.Grade2
  CertificateNo := some input.CertificateNo
  Status := some input.Status
  CommissionNo := some input.CommissionNo
  DirectorName := some input.DirectorName
  CreatedAt := some now

/-- `INSERT INTO documents (...) VALUES (..., NOW())`: the serial counter
gives the id. -/
def insertDocument (flt : Option String) (now : String) (db : DB) (input : DocumentInput) :
    Except DbError DB :=
  match flt with
  | some e => .error (.driver e)
  | none =>
    .ok { db with
      documents := db.documents ++ [insertedDocument ((db.documentsSeq + 1 : Nat) : Int) now input]
      documentsSeq := db.documentsSeq + 1 }

/-- The commission number after the default of `documentCreate`. -/
def defaultCommissionNo (commissionNo : String) : String :=
  if commissionNo = "" ∨ TrimSpace commissionNo = "" then "15" else commissionNo

/-- The certificate number that `documentCreate` stores: the one of the
request, or for a blank one the next number, with the fallback to the largest
id when the allocator fails. -/
def assignCertificateNo (flt : Nat → Option String) (db : DB) (certificateNo : String) : String :=
  if certificateNo = "" ∨ TrimSpace certificateNo = "" then
    match getNextCertificateNumber (flt 1) db with
    | .ok certNumber => certNumber
    | .error _ =>
      match selectMaxDocumentID (flt 2) db with
      | some maxID => sprintfZeroPad 4 (wrapInt64 (maxID + 1))
      | none => sprintfZeroPad 4 1
  else certificateNo

/-- The student check shared by `documentCreate` and `documentUpdate`:
`none` when the request goes on, otherwise the error response. -/
def checkStudent (flt : Option String) (db : DB) (jshshir : String) :
    Option (Nat × String) :=
  if jshshir ≠ "" ∧ (TrimSpace jshshir).length > 0 then
    match studentExists flt db (TrimSpace jshshir) with
    | .error _ => some (500, "Baza xatosi")
    | .ok false => some (404, "Talaba topilmadi")
    | .ok true => none
  else none

/-- `documentCreate`.  Storage calls: 0 the student check, 1 the allocator,
2 the fallback on the largest id, 3 the insert. -/
def documentCreate (flt : Nat → Option String) (now : String) (db : DB)
    (body : Except String DocumentInput) : Response DocumentCreateResponse × DB :=
  match body with
  | .error _ => (.error 400 "Noto\x27g\x27ri ma\x27lumot", db)
  | .ok input0 =>
    let input1 := { input0 with CommissionNo := defaultCommissionNo input0.CommissionNo }
    match checkStudent (flt 0) db input1.StudentJSHSHIR with
    | some (code, msg) => (.error code msg, db)
    | none =>
      let input := { input1 with CertificateNo := assignCertificateNo flt db input1.CertificateNo }
      match insertDocument (flt 3) now db input with
      | .error err => (.error 500 ("Guvohnoma yaratishda xatolik: " ++ err.Error), db)
      | .ok db1 =>
        (.ok { status := "success"
               message := "Guvohnoma muvaffaqiyatli yaratildi"
               certificate_number := input.CertificateNo
               commission_number := input.CommissionNo }, db1)

/-- The row that the `UPDATE` of `documentUpdate` leaves in place of `d`. -/
def updatedDocument (input : DocumentInput) (d : Document) : Document :=
  { d with
    Title := some input.Title
    StudentJSHSHIR := some input.StudentJSHSHIR
    StudentName := some input.StudentName
    CourseStart := some input.CourseStart
    CourseEnd := some input.CourseEnd
    ExamDate := some input.ExamDate
    Categories := some input.Categories
    CourseHours := some input.CourseHours
    Grade1 := some input.Grade1
    Grade2 := some input.Grade2
    CertificateNo := some input.CertificateNo
    Status := some input.Status
    CommissionNo := some input.CommissionNo
    DirectorName := some input.DirectorName }

/-- `UPDATE documents SET ... WHERE id=$15`: the store after it and the
number of rows affected. -/
def updateDocument (flt : Option String) (db : DB) (id : Int) (input : DocumentInput) :
    Except DbError (DB × Nat) :=
  match flt with
  | some e => .error (.driver e)
  | none =>
    .ok ({ db with
            documents := db.documents.map (fun d => if d.ID = id then updatedDocument input d else d) },
         (db.documents.filter (fun d => decide (d.ID = id))).length)

/-- `documentUpdate`.  Storage calls: 0 the student check, 1 the update. -/
def documentUpdate (flt : Nat → Option String) (db : DB) (idStr : String)
    (body : Except String DocumentInput) : Response DocumentWriteResponse × DB :=
  match Atoi idStr with
  | none => (.error 400 "Noto\x27g\x27ri guvohnoma ID", db)
  | some id =>
    match body with
    | .error _ => (.error 400 "Noto\x27g\x27ri ma\x27lumot", db)
    | .ok input =>
      match checkStudent (flt 0) db input.StudentJSHSHIR with
      | some (code, msg) => (.error code msg, db)
      | none =>
        match updateDocument (flt 1) db id input with
        | .error err => (.error 500 ("Guvohnoma yangilashda xatolik: " ++ err.Error), db)
        | .ok (db1, rowsAffected) =>
          if rowsAffected = 0 then (.error 404 "Guvohnoma topilmadi", db1)
          else
            (.ok { status := "success"
                   message := "Guvohnoma muvaffaqiyatli yangilandi"
                   id := id
                   rows_affected := rowsAffected }, db1)

/-- The columns that `documentDetails` selects for one document: the row
itself and, from the `LEFT JOIN`, the birth date and phone of the student
whose `jshshir` equals the reference of the document, NULL when there is
none. -/
def joinStudent (db : DB) (d : Document) : Option Student :=
  match d.StudentJSHSHIR with
  | some ref => db.students.find? (fun s => decide (s.JSHSHIR = ref))
  | none => none

/-- The `Scan` of `documentDetails` into the plain fields of
`DocumentDetail`, in the order of the call. -/
def scanDocumentDetail (d : Document) (s : Option Student) : Except DbError DocumentDetail := do
  let title ← scanString 1 "title" d.Title
  let studentJSHSHIR ← scanString 2 "student_jshshir" d.StudentJSHSHIR
  let studentName ← scanString 3 "student_name" d.StudentName
  let courseStart ← scanString 4 "course_start" d.CourseStart
  let courseEnd ← scanString 5 "course_end" d.CourseEnd
  let examDate ← scanString 6 "exam_date" d.ExamDate
  let categories ← scanString 7 "categories" d.Categories
  let courseHours ← scanInt 8 "course_hours" d.CourseHours
  let grade1 ← scanInt 9 "grade1" d.Grade1
  let grade2 ← scanInt 10 "grade2" d.Grade2
  let certificateNo ← scanString 11 "certificate_number" d.CertificateNo
  let status ← scanString 12 "status" d.Status
  let commissionNo ← scanString 13 "commission_number" d.CommissionNo
  let directorName ← scanString 14 "director_name" d.DirectorName
  let createdAt ← scanString 15 "created_at" d.CreatedAt
  let birthDate ← scanString 16 "birth_date" (s.map (fun st => st.BirthDate))
  let phone ← scanString 17 "phone" (s.map (fun st => st.Phone))
  pure
    { Output :=
        { ID := d.ID, Title := title, StudentJSHSHIR := studentJSHSHIR,
          StudentName := studentName, CourseStart := courseStart, CourseEnd := courseEnd,
          ExamDate := examDate, Categories := categories, CourseHours := courseHours,
          Grade1 := grade1, Grade2 := grade2, CertificateNo := certificateNo,
          Status := status, CommissionNo := commissionNo, DirectorName := directorName,
          CreatedAt := createdAt }
      StudentBirthDate := birthDate
      StudentPhone := phone
      QRCodeBase64 := "" }

/-- The `QueryRow(...).Scan(...)` of `documentDetails`. -/
def queryDocumentDetail (flt : Option String) (db : DB) (id : Int) : Except DbError DocumentDetail :=
  match flt with
  | some e => .error (.driver e)
  | none =>
    match db.documents.find? (fun d => decide (d.ID = id)) with
    | none => .error .noRows
    | some d => scanDocumentDetail d (joinStudent db d)

/-- The text that `documentDetails` encodes. -/
def qrData (detail : DocumentDetail) : String :=
  "MMM TRAKTOR SERVIS\n" ++
  "Guvohnoma: " ++ detail.Output.CertificateNo ++ "\n" ++
  "Raqam: " ++ toString detail.Output.ID ++ "\n" ++
  "Talaba: " ++ detail.Output.StudentName ++ "\n" ++
  "JShShIR: " ++ detail.Output.StudentJSHSHIR ++ "\n" ++
  "Sana: " ++ detail.Output.CreatedAt ++ "\n" ++
  "Toifalar: " ++ detail.Output.Categories ++ "\n" ++
  "Imtihon: " ++ detail.Output.ExamDate

/-- `generateQRCode`: the QR library, the PNG encoder and base64 are the
argument `encode`, which gives the encoded image or the error of the
library. -/
def generateQRCode (encode : String → Except String String) (data : String) :
    Except String String :=
  match encode data with
  | .error err => .error err
  | .ok image => .ok image

/-- `documentDetails`. -/
def documentDetails (encode : String → Except String String) (flt : Option String) (db : DB)
    (idStr : String) : Response DocumentDetail :=
  match Atoi idStr with
  | none => .error 400 "Invalid document ID"
  | some id =>
    match queryDocumentDetail flt db id with
    | .error .noRows => .error 404 "Document not found"
    | .error err => .error 500 err.Error
    | .ok detail =>
      match generateQRCode encode (qrData detail) with
      | .error _ => .ok { detail with QRCodeBase64 := "" }
      | .ok qrCode => .ok { detail with QRCodeBase64 := qrCode }

/-! ## Verification lookup -/

/-- The `Scan` of `verifyHandler` into a `DocumentOutput`: thirteen columns,
the other fields keep their zero value. -/
def scanVerify (d : Document) : Except DbError DocumentOutput := do
  let certificateNo ← scanString 1 "certificate_number" d.CertificateNo
  let studentName ← scanString 2 "student_name" d.StudentName
  let studentJSHSHIR ← scanString 3 "student_jshshir" d.StudentJSHSHIR
  let courseStart ← scanString 4 "course_start" d.CourseStart
  let courseEnd ← scanString 5 "course_end" d.CourseEnd
  let examDate ← scanString 6 "exam_date" d.ExamDate
  let categories ← scanString 7 "categories" d.Categories
  let courseHours ← scanInt 8 "course_hours" d.CourseHours
  let grade1 ← scanInt 9 "grade1" d.Grade1
  let grade2 ← scanInt 10 "grade2" d.Grade2
  let status ← scanString 11 "status" d.Status
  let directorName ← scanString 12 "director_name" d.DirectorName
  pure
    { DocumentOutput.zero with
      ID := d.ID, CertificateNo := certificateNo, StudentName := studentName,
      StudentJSHSHIR := studentJSHSHIR, CourseStart := courseStart, CourseEnd := courseEnd,
      ExamDate := examDate, Categories := categories, CourseHours := courseHours,
      Grade1 := grade1, Grade2 := grade2, Status := status, DirectorName := directorName }

/-- The condition `certificate_number=$1 OR id::text=$1`. -/
def matchesToken (cert : String) (d : Document) : Bool :=
  decide (d.CertificateNo = some cert) || decide (toString d.ID = cert)

/-- The `QueryRow(...).Scan(...)` of `verifyHandler`: the first row of the
result. -/
def queryVerify (flt : Option String) (db : DB) (cert : String) : Except DbError DocumentOutput :=
  match flt with
  | some e => .error (.driver e)
  | none =>
    match db.documents.find? (matchesToken cert) with
    | none => .error .noRows
    | some d => scanVerify d

/-- `verifyHandler`. -/
def verifyHandler (flt : Option String) (db : DB) (cert : String) : Response DocumentOutput :=
  if cert = "" then .error 400 "Missing certificate parameter"
  else
    match queryVerify flt db cert with
    | .error .noRows => .error 404 "Certificate not found"
    | .error err => .error 500 err.Error
    | .ok doc => .ok doc

/-! ## Invoice lifecycle manager -/

/-- The decoded body of `invoiceCreate`.  The amount is the value of the
decoded `float64`, which is finite. -/
structure InvoiceInput where
  StudentJSHSHIR : String
  Description : String
  Amount : ℚ
deriving DecidableEq, Repr

/-- The body of a successful `invoiceCreate`. -/
structure InvoiceCreateResponse where
  success : Bool
  id : Int
  invoice_number : String
  student_name : String
  message : String
deriving DecidableEq, Repr

/-- The body of a successful `invoiceUpdateStatus`. -/
structure InvoiceStatusResponse where
  success : Bool
  message : String
  status : String
deriving DecidableEq, Repr

/-- The status that `invoiceCreate` stores. -/
def statusPending : String := "To\x27lov kutilmoqda"

/-- The status that stamps the payment date. -/
def statusPaid : String := "To\x27landi"

/-- The third status. -/
def statusCancelled : String := "Bekor qilindi"

/-- `validStatuses` of `invoiceUpdateStatus`. -/
def validStatuses : List String := [statusPending, statusPaid, statusCancelled]

/-- `SELECT full_name FROM students WHERE jshshir=$1` scanned into a
string. -/
def selectStudentName (flt : Option String) (db : DB) (jshshir : String) : Except DbError String :=
  match flt with
  | some e => .error (.driver e)
  | none =>
    match db.students.find? (fun s => decide (s.JSHSHIR = jshshir)) with
    | none => .error .noRows
    | some s => .ok s.FullName

/-- `INSERT INTO invoices (...) VALUES (..., NOW()) RETURNING id`: the store
after it and the id that the serial counter gave.  The columns that the
statement does not name are NULL. -/
def insertInvoice (flt : Option String) (now : String) (db : DB) (jshshir studentName : String)
    (description : String) (amount : ℚ) (status issueDate dueDate : String) :
    Except DbError (DB × Int) :=
  match flt with
  | some e => .error (.driver e)
  | none =>
    let id : Int := ((db.invoicesSeq + 1 : Nat) : Int)
    .ok ({ db with
            invoices := db.invoices ++
              [{ ID := id, StudentJSHSHIR := jshshir, StudentName := studentName,
                 Description := description, Amount := amount, Status := status,
                 InvoiceNumber := none, CreatedAt := now, IssueDate := some issueDate,
                 DueDate := some dueDate, PaymentDate := none }]
            invoicesSeq := db.invoicesSeq + 1 }, id)

/-- `UPDATE invoices SET invoice_number=$1 WHERE id=$2`; the handler drops
its error, so a failed call leaves the store as it was. -/
def updateInvoiceNumber (flt : Option String) (db : DB) (invoiceNumber : String) (id : Int) : DB :=
  match flt with
  | some _ => db
  | none =>
    { db with
      invoices := db.invoices.map (fun i =>
        if i.ID = id then { i with InvoiceNumber := some invoiceNumber } else i) }

/-- `invoiceCreate`.  Storage calls: 0 the student name, 1 the insert, 2 the
write-back of the invoice number.  `now1` and `now2` are the local day
numbers of the two calls of `time.Now()`, `now` the text of `NOW()`. -/
def invoiceCreate (flt : Nat → Option String) (now1 now2 : Nat) (now : String) (db : DB)
    (body : Except String InvoiceInput) : Response InvoiceCreateResponse × DB :=
  match body with
  | .error err => (.error 400 ("Invalid JSON: " ++ err), db)
  | .ok input =>
    if input.StudentJSHSHIR = "" ∨ input.Amount ≤ 0 then
      (.error 400 "Missing required fields", db)
    else
      match selectStudentName (flt 0) db (TrimSpace input.StudentJSHSHIR) with
      | .error .noRows =>
        (.error 404 "Talaba topilmadi. Avval talabani ro\x27yxatga oling.", db)
      | r =>
        let studentName : String :=
          match r with
          | .ok name => name
          | .error _ => "Noma\x27lum talaba"
        let issueDate := formatDate now1
        let dueDate := formatDate (now2 + 30)
        match insertInvoice (flt 1) now db (TrimSpace input.StudentJSHSHIR) studentName
            input.Description input.Amount statusPending issueDate dueDate with
        | .error err => (.error 500 ("Bazada xatolik: " ++ err.Error), db)
        | .ok (db1, id) =>
          let invoiceNumber := "INV-" ++ sprintfZeroPad 6 id
          let db2 := updateInvoiceNumber (flt 2) db1 invoiceNumber id
          (.ok { success := true
                 id := id
                 invoice_number := invoiceNumber
                 student_name := studentName
                 message := "Invoyis muvaffaqiyatli yaratildi" }, db2)

/-- `UPDATE invoices SET status = $1, payment_date = $2 WHERE id = $3`: the
store after it and the number of rows affected. -/
def updateInvoiceStatus (flt : Option String) (db : DB) (status : String)
    (paymentDate : Option String) (id : Int) : Except DbError (DB × Nat) :=
  match flt with
  | some e => .error (.driver e)
  | none =>
    .ok ({ db with
            invoices := db.invoices.map (fun i =>
              if i.ID = id then { i with Status := status, PaymentDate := paymentDate } else i) },
         (db.invoices.filter (fun i => decide (i.ID = id))).length)

/-- `invoiceUpdateStatus`.  `today` is the local day number of
`time.Now()`. -/
def invoiceUpdateStatus (flt : Option String) (today : Nat) (db : DB) (idStr : String)
    (body : Except String String) : Response InvoiceStatusResponse × DB :=
  match Atoi idStr with
  | none => (.error 400 "Invalid invoice ID", db)
  | some invoiceID =>
    match body with
    | .error _ => (.error 400 "Invalid JSON", db)
    | .ok status =>
      if !validStatuses.contains status then (.error 400 "Invalid status", db)
      else
        let paymentDate : Option String :=
          if status = statusPaid then some (formatDate today) else none
        match updateInvoiceStatus flt db status paymentDate invoiceID with
        | .error err => (.error 500 err.Error, db)
        | .ok (db1, rowsAffected) =>
          if rowsAffected = 0 then (.error 404 "Invoice not found", db1)
          else
            (.ok { success := true
                   message := "Invoyis holati yangilandi"
                   status := status }, db1)

/-- `invoiceDelete`.  The id goes to the store as text; `toInteger` is the
conversion of the store to the type of the column, an error for a text that
is no integer.  Storage calls: 0 the existence check, 1 the delete. -/
def invoiceDelete (toInteger : String → Except DbError Int) (flt : Nat → Option String) (db : DB)
    (id : String) : Response String × DB :=
  match flt 0 with
  | some e => (.error 500 e, db)
  | none =>
    match toInteger id with
    | .error err => (.error 500 err.Error, db)
    | .ok n =>
      if !db.invoices.any (fun i => decide (i.ID = n)) then (.error 404 "Invoyis topilmadi", db)
      else
        match flt 1 with
        | some e => (.error 500 e, db)
        | none =>
          let db1 := { db with invoices := db.invoices.filter (fun i => !decide (i.ID = n)) }
          if (db.invoices.filter (fun i => decide (i.ID = n))).length = 0 then
            (.error 404 "Invoyis topilmadi", db1)
          else (.ok "Invoyis muvaffaqiyatli o\x27chirildi", db1)

/-- The states of the store that `invoiceCreate`, `invoiceUpdateStatus` and
`invoiceDelete` reach from a store without invoices. -/
inductive Reachable : DB → Prop where
  | init (db : DB) (h : db.invoices = []) : Reachable db
  | create (db : DB) (flt : Nat → Option String) (now1 now2 : Nat) (now : String)
      (body : Except String InvoiceInput) (h : Reachable db) :
      Reachable (invoiceCreate flt now1 now2 now db body).2
  | updateStatus (db : DB) (flt : Option String) (today : Nat) (idStr : String)
      (body : Except String String) (h : Reachable db) :
      Reachable (invoiceUpdateStatus flt today db idStr body).2
  | delete (db : DB) (toInteger : String → Except DbError Int) (flt : Nat → Option String)
      (id : String) (h : Reachable db) :
      Reachable (invoiceDelete toInteger flt db id).2

/-! ## Interleaved creations -/

/-- The progress of one `documentCreate` call on a decoded request: before
the read of the maximum, between the read and the insert, and finished. -/
inductive CreateProc where
  | start (input : DocumentInput)
  | allocated (input : DocumentInput)
  | done (resp : Response DocumentCreateResponse)
deriving DecidableEq, Repr

/-- One step of a `documentCreate` call on the store: the first step runs
the handler up to the certificate number (default of the commission number,
student check, read of the maximum), the second step is the insert and the
response. -/
def createStep (flt : Nat → Option String) (now : String) (db : DB) :
    CreateProc → CreateProc × DB
  | .start input0 =>
    let input1 := { input0 with CommissionNo := defaultCommissionNo input0.CommissionNo }
    match checkStudent (flt 0) db input1.StudentJSHSHIR with
    | some (code, msg) => (.done (.error code msg), db)
    | none =>
      (.allocated
        { input1 with CertificateNo := assignCertificateNo flt db input1.CertificateNo }, db)
  | .allocated input =>
    match insertDocument (flt 3) now db input with
    | .error err => (.done (.error 500 ("Guvohnoma yaratishda xatolik: " ++ err.Error)), db)
    | .ok db1 =>
      (.done (.ok { status := "success"
                    message := "Guvohnoma muvaffaqiyatli yaratildi"
                    certificate_number := input.CertificateNo
                    commission_number := input.CommissionNo }), db1)
  | .done resp => (.done resp, db)

/-- The calls and the store after a schedule: every entry of the schedule
lets the call of that position take its next step. -/
def runSchedule (flt : Nat → Option String) (now : String) :
    List Nat → List CreateProc × DB → List CreateProc × DB
  | [], st => st
  | k :: ks, st =>
    match st.1.get? k with
    | none => runSchedule flt now ks st
    | some p =>
      runSchedule flt now ks
        (st.1.set k (createStep flt now st.2 p).1, (createStep flt now st.2 p).2)

/-- The schedule without interleaving for calls `k`, ..., `k + n - 1`: both
steps of a call, then both steps of the next one. -/
def serialSchedule (k : Nat) : Nat → List Nat
  | 0 => []
  | n + 1 => k :: k :: serialSchedule (k + 1) n

/-- The handler called on the requests one after the other. -/
def createAll (flt : Nat → Option String) (now : String) :
    DB → List DocumentInput → List (Response DocumentCreateResponse) × DB
  | db, [] => ([], db)
  | db, input :: rest =>
    ((documentCreate flt now db (.ok input)).1 ::
        (createAll flt now (documentCreate flt now db (.ok input)).2 rest).1,
      (createAll flt now (documentCreate flt now db (.ok input)).2 rest).2)

/-- The certificate number of a successful response. -/
def responseCertificateNo : Response DocumentCreateResponse → Option String
  | .ok body => some body.certificate_number
  | .error _ _ => none

/-- The decimal text of `n`, padded with zeros on the left to four digits. -/
def certificateText (n : Nat) : String :=
  String.mk (List.leftpad 4 '0' (toString n).data)

/-- The certificate number that a finished call returned. -/
def procCertificateNo : CreateProc → Option String
  | .done resp => responseCertificateNo resp
  | _ => none

/-! ## Read paths -/

/-- The order of two texts by code point, as the store compares the text of
two timestamps written in one format. -/
def textLt : List Char → List Char → Bool
  | [], [] => false
  | [], _ :: _ => true
  | _ :: _, [] => false
  | a :: as, b :: bs =>
    decide (a.toNat < b.toNat) || (decide (a.toNat = b.toNat) && textLt as bs)

/-- The order `created_at DESC` on nullable values: NULL first, then the
later value first. -/
def createdAtDesc (a b : Option String) : Bool :=
  match a, b with
  | none, _ => true
  | some _, none => false
  | some x, some y => !textLt x.data y.data

/-- `SELECT ... FROM documents WHERE id=$1` scanned into a `Document`, whose
nullable fields take NULL. -/
def selectDocument (flt : Option String) (db : DB) (id : Int) : Except DbError Document :=
  match flt with
  | some e => .error (.driver e)
  | none =>
    match db.documents.find? (fun d => decide (d.ID = id)) with
    | none => .error .noRows
    | some d => .ok d

/-- `documentGet`. -/
def documentGet (flt : Option String) (db : DB) (idStr : String) : Response DocumentOutput :=
  match Atoi idStr with
  | none => .error 400 "Invalid document ID"
  | some id =>
    match selectDocument flt db id with
    | .error .noRows => .error 404 "Document not found"
    | .error err => .error 500 err.Error
    | .ok d => .ok (convertDocumentToOutput d)

/-- `documentsList`: every row, `ORDER BY created_at DESC`, converted. -/
def documentsList (flt : Option String) (db : DB) : Response (List DocumentOutput) :=
  match flt with
  | some e => .error 500 e
  | none =>
    .ok ((db.documents.insertionSort
      (fun a b => createdAtDesc a.CreatedAt b.CreatedAt = true)).map convertDocumentToOutput)

/-- A document with every NULL replaced by the empty string or by 0. -/
def nullToEmpty (d : Document) : Document where
  ID := d.ID
  Title := some (getStringValue d.Title)
  StudentJSHSHIR := some (getStringValue d.StudentJSHSHIR)
  StudentName := some (getStringValue d.StudentName)
  CourseStart := some (getStringValue d.CourseStart)
  CourseEnd := some (getStringValue d.CourseEnd)
  ExamDate := some (getStringValue d.ExamDate)
  Categories := some (getStringValue d.Categories)
  CourseHours := some (getIntValue d.CourseHours)
  Grade1 := some (getIntValue d.Grade1)
  Grade2 := some (getIntValue d.Grade2)
  CertificateNo := some (getStringValue d.CertificateNo)
  Status := some (getStringValue d.Status)
  CommissionNo := some (getStringValue d.CommissionNo)
  DirectorName := some (getStringValue d.DirectorName)
  CreatedAt := some (getStringValue d.CreatedAt)

/-- The JSON view of an invoice in the lists, `Invoice` of the source. -/
structure Invoice where
  ID : Int
  StudentJSHSHIR : String
  StudentName : String
  Description : String
  Amount : ℚ
  Status : String
  InvoiceNumber : String
  CreatedAt : String
  IssueDate : String
  DueDate : String
  PaymentDate : String
  StudentBirthDate : String
  StudentPhone : String
deriving DecidableEq, Repr

/-- The body of `invoiceGetDetails`. -/
structure InvoiceDetail where
  ID : Int
  StudentJSHSHIR : String
  StudentName : String
  Description : String
  Amount : ℚ
  Status : String
  InvoiceNumber : String
  IssueDate : String
  DueDate : String
  PaymentDate : String
  CreatedAt : String
  StudentBirthDate : String
  StudentPhone : String
deriving DecidableEq, Repr

/-- SQL `LPAD(text, n, fill)` with a fill of one character: the text is
extended on the left to `n` characters, and a longer text is cut to its first
`n` characters. -/
def LPAD (s : List Char) (n : Nat) (fill : Char) : List Char :=
  if n ≤ s.length then s.take n else List.replicate (n - s.length) fill ++ s

/-- The select item
`COALESCE(i.invoice_number, 'INV-' || LPAD(i.id::text, 6, '0'))` of
`invoicesList`, `invoicesSearch` and `invoiceGetDetails`. -/
def selectInvoiceNumber (i : InvoiceRow) : String :=
  match i.InvoiceNumber with
  | some n => n
  | none => "INV-" ++ String.mk (LPAD (toString i.ID).data 6 '0')

/-- The student that `LEFT JOIN students s ON i.student_jshshir = s.jshshir`
joins to an invoice. -/
def joinInvoiceStudent (db : DB) (i : InvoiceRow) : Option Student :=
  db.students.find? (fun s => decide (s.JSHSHIR = i.StudentJSHSHIR))

/-- The select item `COALESCE(s.full_name, 'Noma''lum talaba')`. -/
def selectStudentFullName (db : DB) (i : InvoiceRow) : String :=
  match joinInvoiceStudent db i with
  | some s => s.FullName
  | none => "Noma\x27lum talaba"

/-- The `Invoice` that `invoicesList` and `invoicesSearch` build from a row:
the dates are not copied into it. -/
def scanInvoice (db : DB) (i : InvoiceRow) : Invoice where
  ID := i.ID
  StudentJSHSHIR := i.StudentJSHSHIR
  StudentName := selectStudentFullName db i
  Description := i.Description
  Amount := i.Amount
  Status := i.Status
  InvoiceNumber := selectInvoiceNumber i
  CreatedAt := i.CreatedAt
  IssueDate := ""
  DueDate := ""
  PaymentDate := ""
  StudentBirthDate := ""
  StudentPhone := ""

/-- `ORDER BY i.created_at DESC`. -/
def orderInvoices (rows : List InvoiceRow) : List InvoiceRow :=
  rows.insertionSort (fun a b => textLt a.CreatedAt.data b.CreatedAt.data = false)

/-- `invoicesList`. -/
def invoicesList (flt : Option String) (db : DB) : Response (List Invoice) :=
  match flt with
  | some e => .error 500 e
  | none => .ok ((orderInvoices db.invoices).map (scanInvoice db))

/-- SQL `LIKE` on lists of characters, letters compared after the case
folding `fold` as `ILIKE` does: `%` stands for any text, `_` for one
character, and a backslash makes the next character of the pattern
literal. -/
def ilikeMatch (fold : Char → Char) : List Char → List Char → Bool
  | [], t => t.isEmpty
  | c :: p, t =>
    if c = '%' then t.tails.any (fun s => ilikeMatch fold p s)
    else if c = '_' then
      match t with
      | [] => false
      | _ :: t1 => ilikeMatch fold p t1
    else if c = '\\' then
      match p, t with
      | c2 :: p2, c1 :: t1 => fold c2 == fold c1 && ilikeMatch fold p2 t1
      | _, _ => false
    else
      match t with
      | [] => false
      | c1 :: t1 => fold c == fold c1 && ilikeMatch fold p t1

/-- SQL `text ILIKE pattern` on a nullable text: NULL does not match. -/
def ILIKE (fold : Char → Char) (text : Option String) (pattern : String) : Bool :=
  match text with
  | some t => ilikeMatch fold pattern.data t.data
  | none => false

/-- The `WHERE` clause of `invoicesSearch`. -/
def searchMatches (fold : Char → Char) (db : DB) (q : String) (i : InvoiceRow) : Bool :=
  ILIKE fold (some i.StudentJSHSHIR) q ||
  ILIKE fold ((joinInvoiceStudent db i).map (fun s => s.FullName)) q ||
  ILIKE fold (some i.Description) q ||
  ILIKE fold i.InvoiceNumber q

/-- `invoicesSearch`.  `fold` is the case folding of the store, `query` the
value of the parameter `q`. -/
def invoicesSearch (fold : Char → Char) (flt : Option String) (db : DB) (query : String) :
    Response (List Invoice) :=
  let q0 := "%" ++ query ++ "%"
  let q := if q0 = "%%" then "%" else q0
  match flt with
  | some e => .error 500 e
  | none =>
    .ok ((orderInvoices (db.invoices.filter (searchMatches fold db q))).map (scanInvoice db))

/-- The row that `invoiceGetDetails` selects, with the `NullString` values
converted. -/
def scanInvoiceDetail (db : DB) (i : InvoiceRow) : InvoiceDetail where
  ID := i.ID
  StudentJSHSHIR := i.StudentJSHSHIR
  StudentName := i.StudentName
  Description := i.Description
  Amount := i.Amount
  Status := i.Status
  InvoiceNumber := selectInvoiceNumber i
  IssueDate := getStringValue i.IssueDate
  DueDate := getStringValue i.DueDate
  PaymentDate := getStringValue i.PaymentDate
  CreatedAt := i.CreatedAt
  StudentBirthDate := getStringValue ((joinInvoiceStudent db i).map (fun s => s.BirthDate))
  StudentPhone := getStringValue ((joinInvoiceStudent db i).map (fun s => s.Phone))

/-- `invoiceGetDetails`. -/
def invoiceGetDetails (flt : Option String) (db : DB) (idStr : String) :
    Response InvoiceDetail :=
  match Atoi idStr with
  | none => .error 400 "Invalid invoice ID"
  | some invoiceID =>
    match flt with
    | some e => .error 500 e
    | none =>
      match db.invoices.find? (fun i => decide (i.ID = invoiceID)) with
      | none => .error 404 "Invoice not found"
      | some i => .ok (scanInvoiceDetail db i)

/-- The payment date of every stored invoice is non-NULL exactly when its
status is the paid one. -/
def PaymentDateInvariant (db : DB) : Prop :=
  ∀ i ∈ db.invoices, (i.PaymentDate ≠ none ↔ i.Status = statusPaid)

/-! ## Sample stores and requests -/

/-- A document row with every column set. -/
def sampleDocument (id : Int) (studentJSHSHIR certificateNo : String) : Document where
  ID := id
  Title := some "Guvohnoma"
  StudentJSHSHIR := some studentJSHSHIR
  StudentName := some "Ali Valiyev"
  CourseStart := some "2024-01-10"
  CourseEnd := some "2024-03-10"
  ExamDate := some "2024-03-15"
  Categories := some "A, B"
  CourseHours := some 120
  Grade1 := some 5
  Grade2 := some 4
  CertificateNo := some certificateNo
  Status := some "active"
  CommissionNo := some "15"
  DirectorName := some "Direktor"
  CreatedAt := some "2024-03-16T10:00:00Z"

/-- A request body for a document of the student with the given reference. -/
def sampleInput (studentJSHSHIR certificateNo : String) : DocumentInput where
  Title := "Guvohnoma"
  StudentJSHSHIR := studentJSHSHIR
  StudentName := "Ali Valiyev"
  CourseStart := "2024-01-10"
  CourseEnd := "2024-03-10"
  ExamDate := "2024-03-15"
  Categories := "A, B"
  CourseHours := 120
  Grade1 := 5
  Grade2 := 4
  CertificateNo := certificateNo
  Status := "active"
  CommissionNo := ""
  DirectorName := "Direktor"

/-- The one student of the sample stores. -/
def sampleStudent : Student :=
  { JSHSHIR := "12345678901234", FullName := "Ali Valiyev", BirthDate := "2000-05-01",
    Phone := "+998901234567" }

/-- A store with one student and two documents, numbered "0007" and "A-1". -/
def sampleDB : DB where
  students := [sampleStudent]
  documents := [sampleDocument 1 "12345678901234" "0007", sampleDocument 2 "" "A-1"]
  invoices := []
  documentsSeq := 2
  invoicesSeq := 0

/-- No storage call fails. -/
def noFault : Nat → Option String := fun _ => none

/-- The request of the sample invoice. -/
def sampleInvoiceInput : InvoiceInput :=
  { StudentJSHSHIR := "12345678901234", Description := "Kurs", Amount := 150000 }

/-- The row of the sample invoice, created on 2024-03-18. -/
def sampleInvoice (status : String) (paymentDate : Option String) : InvoiceRow :=
  { ID := 1, StudentJSHSHIR := "12345678901234", StudentName := "Ali Valiyev",
    Description := "Kurs", Amount := 150000, Status := status,
    InvoiceNumber := some "INV-000001", CreatedAt := "2024-03-18T08:00:00Z",
    IssueDate := some "2024-03-18", DueDate := some "2024-04-17", PaymentDate := paymentDate }

/-- The sample store after the sample invoice was created and paid. -/
def paidDB : DB :=
  { sampleDB with
    invoices := [sampleInvoice statusPaid (some "2024-03-19")]
    invoicesSeq := 1 }

/-- The sample store after the certificate number of document 2 was
overwritten with the empty string by `documentUpdate`. -/
def emptyCertificateDB : DB :=
  (documentUpdate noFault sampleDB "2" (.ok (sampleInput "" ""))).2

/-- The summary that the lookup returns for document 1 of the sample
store. -/
def sampleSummary : DocumentOutput :=
  { DocumentOutput.zero with
    ID := 1, CertificateNo := "0007", StudentName := "Ali Valiyev",
    StudentJSHSHIR := "12345678901234", CourseStart := "2024-01-10", CourseEnd := "2024-03-10",
    ExamDate := "2024-03-15", Categories := "A, B", CourseHours := 120, Grade1 := 5, Grade2 := 4,
    Status := "active", DirectorName := "Direktor" }

/-- A store with the sample student and no document. -/
def emptyDB : DB where
  students := [sampleStudent]
  documents := []
  invoices := []
  documentsSeq := 0
  invoicesSeq := 0

/-- The store after two creations on `emptyDB`: the first with a blank
certificate number, which the allocator numbers "0001" and the store gives
the id 1, the second with the certificate number "1" of the request, which
gets the id 2. -/
def priorityDB : DB :=
  (documentCreate noFault "2024-04-02T09:00:00Z"
    (documentCreate noFault "2024-04-01T09:00:00Z" emptyDB (.ok (sampleInput "" ""))).2
    (.ok (sampleInput "" "1"))).2

/-- An encoder that always fails. -/
def failingEncoder : String → Except String String := fun _ => .error "encoder fault"

/-- An encoder that always succeeds. -/
def workingEncoder : String → Except String String := fun _ => .ok "iVBORw0KGgo="

/-- The details of document 1 of the sample store with the image `qr`. -/
def sampleDetail (qr : String) : DocumentDetail :=
  { Output := { sampleSummary with
                Title := "Guvohnoma", CommissionNo := "15", CreatedAt := "2024-03-16T10:00:00Z" }
    StudentBirthDate := "2000-05-01"
    StudentPhone := "+998901234567"
    QRCodeBase64 := qr }

/-- The sample store when 999999 invoice ids have been given out. -/
def millionDB : DB :=
  { sampleDB with invoicesSeq := 999999 }

/-- The write-back of the invoice number fails, every other call runs. -/
def writeBackFault : Nat → Option String :=
  fun k => if k = 2 then some "driver: bad connection" else none

/-- The text `q` is a substring of `text` when letters are compared after
the case folding `fold`; a NULL text has no substring. -/
def containsFold (fold : Char → Char) (q : String) (text : Option String) : Bool :=
  match text with
  | some t => decide ((q.data.map fold) <:+: (t.data.map fold))
  | none => false

/-- The invoices that a search for the substring `q` selects: `q` occurs in
the student reference, in the full name that the registry holds for that
reference, in the description or in the stored invoice number. -/
def substringMatches (fold : Char → Char) (db : DB) (q : String) (i : InvoiceRow) : Bool :=
  containsFold fold q (some i.StudentJSHSHIR) ||
  containsFold fold q ((joinInvoiceStudent db i).map (fun s => s.FullName)) ||
  containsFold fold q (some i.Description) ||
  containsFold fold q i.InvoiceNumber

/-- The store `paidDB` after the student of the sample invoice was renamed
in the registry: the invoice still carries the name "Ali Valiyev". -/
def renamedDB : DB :=
  { paidDB with students := [{ sampleStudent with FullName := "Bobur Karimov" }] }

/-! ## Lemmas on the primitives -/

theorem castAll_eq_map {l : List String} {vs : List Int} (h : castAll l = .ok vs) :
    vs = l.map (fun s => (decimalValue s.data : Int)) ∧
      ∀ s ∈ l, decimalValue s.data ≤ 2147483647 := by
  induction l generalizing vs with
  | nil =>
    simp only [castAll, Except.ok.injEq] at h
    subst h
    simp
  | cons s ss ih =>
    unfold castAll at h
    by_cases hs : decimalValue s.data ≤ 2147483647
    · simp only [castInteger, hs, if_true] at h
      cases hss : castAll ss with
      | error e => simp [hss] at h
      | ok ws =>
        simp only [hss, Except.ok.injEq] at h
        obtain ⟨h1, h2⟩ := ih hss
        subst h
        refine ⟨by simp [h1], ?_⟩
        intro t ht
        rcases List.mem_cons.mp ht with rfl | ht
        · exact hs
        · exact h2 t ht
    · simp [castInteger, hs] at h

theorem sqlMax_eq_none {l : List Int} : sqlMax l = none ↔ l = [] := by
  cases l with
  | nil => simp [sqlMax]
  | cons x xs =>
    simp only [sqlMax]
    cases sqlMax xs <;> simp

theorem sqlMax_eq_some {l : List Int} {m : Int} (h : sqlMax l = some m) :
    m ∈ l ∧ ∀ x ∈ l, x ≤ m := by
  induction l generalizing m with
  | nil => simp [sqlMax] at h
  | cons x xs ih =>
    simp only [sqlMax] at h
    cases hxs : sqlMax xs with
    | none =>
      simp only [hxs, Option.some.injEq] at h
      subst h
      have : xs = [] := sqlMax_eq_none.mp hxs
      subst this
      simp
    | some k =>
      simp only [hxs, Option.some.injEq] at h
      obtain ⟨hk, hle⟩ := ih hxs
      subst h
      constructor
      · rcases le_total x k with hxk | hxk
        · rw [max_eq_right hxk]; exact List.mem_cons_of_mem _ hk
        · rw [max_eq_left hxk]; exact List.mem_cons_self _ _
      · intro y hy
        rcases List.mem_cons.mp hy with rfl | hy
        · exact le_max_left _ _
        · exact le_trans (hle y hy) (le_max_right _ _)

theorem wrapInt64_of_range {n : Int} (h0 : -9223372036854775808 ≤ n)
    (h1 : n ≤ 9223372036854775807) : wrapInt64 n = n := by
  unfold wrapInt64
  rw [Int.emod_eq_of_lt (by omega) (by omega)]
  omega

theorem sprintfZeroPad_natCast (w n : Nat) :
    sprintfZeroPad w (n : Int) = String.mk (List.leftpad w '0' (toString n).data) := by
  unfold sprintfZeroPad
  have h : ¬ ((n : Int) < 0) := by omega
  simp [h]

theorem mem_numericCertificates {docs : List Document} {c : String} :
    c ∈ numericCertificates docs ↔
      ∃ d ∈ docs, d.CertificateNo = some c ∧ isNumericText c = true := by
  unfold numericCertificates
  rw [List.mem_filterMap]
  constructor
  · rintro ⟨d, hd, h⟩
    refine ⟨d, hd, ?_⟩
    cases hc : d.CertificateNo with
    | none => simp [hc] at h
    | some c0 =>
      simp only [hc] at h
      by_cases hn : isNumericText c0 = true
      · simp only [hn, if_true, Option.some.injEq] at h
        subst h
        exact ⟨rfl, hn⟩
      · simp [hn] at h
  · rintro ⟨d, hd, hc, hn⟩
    exact ⟨d, hd, by simp [hc, hn]⟩

theorem selectMaxCertificate_ok {flt : Option String} {db : DB} {r : Option Int}
    (h : selectMaxCertificate flt db = .ok r) :
    flt = none ∧
      r = sqlMax ((numericCertificates db.documents).map (fun s => (decimalValue s.data : Int))) ∧
      ∀ s ∈ numericCertificates db.documents, decimalValue s.data ≤ 2147483647 := by
  unfold selectMaxCertificate at h
  cases flt with
  | some e => simp at h
  | none =>
    cases hc : castAll (numericCertificates db.documents) with
    | error e => simp [hc] at h
    | ok vs =>
      simp only [hc, Except.ok.injEq] at h
      obtain ⟨h1, h2⟩ := castAll_eq_map hc
      exact ⟨rfl, by rw [← h, h1], h2⟩

theorem documentCreate_ok {flts : Nat → Option String} {now : String} {db db1 : DB}
    {input : DocumentInput} {resp : DocumentCreateResponse}
    (h : documentCreate flts now db (.ok input) = (.ok resp, db1)) :
    resp.certificate_number = assignCertificateNo flts db input.CertificateNo ∧
      resp.commission_number = defaultCommissionNo input.CommissionNo ∧
      ∃ row : Document, db1.documents = db.documents ++ [row] ∧
        row.CertificateNo = some resp.certificate_number ∧
        row.CommissionNo = some resp.commission_number := by
  unfold documentCreate at h
  simp only at h
  cases hc : checkStudent (flts 0) db input.StudentJSHSHIR with
  | some p => simp [hc] at h
  | none =>
    simp only [hc] at h
    unfold insertDocument at h
    cases h3 : flts 3 with
    | some e => simp [h3] at h
    | none =>
      simp only [h3, Prod.mk.injEq, Response.ok.injEq] at h
      obtain ⟨h1, h2⟩ := h
      subst h1 h2
      exact ⟨rfl, rfl, _, rfl, rfl, rfl⟩

/-- C1: when the maximum scan of the allocator succeeds,
`getNextCertificateNumber` gives "0001" if no stored certificate number is
purely numeric, and otherwise the decimal text of `m + 1` padded with zeros
on the left to four digits, `m` being the largest value among the purely
numeric stored certificate numbers; a successful `documentCreate` with a
blank certificate number returns that string as `certificate_number` and
stores it on the new row. -/
theorem getNextCertificateNumber_spec (flt : Option String) (db : DB) (r : Option Int)
    (hscan : selectMaxCertificate flt db = .ok r) :
    ((∀ d ∈ db.documents, ∀ c, d.CertificateNo = some c → isNumericText c = false) →
        getNextCertificateNumber flt db = .ok "0001") ∧
    ((∃ d ∈ db.documents, ∃ c, d.CertificateNo = some c ∧ isNumericText c = true) →
        ∃ m : Nat,
          (∃ d ∈ db.documents, ∃ c, d.CertificateNo = some c ∧ isNumericText c = true ∧
            decimalValue c.data = m) ∧
          (∀ d ∈ db.documents, ∀ c, d.CertificateNo = some c → isNumericText c = true →
            decimalValue c.data ≤ m) ∧
          getNextCertificateNumber flt db =
            .ok (String.mk (List.leftpad 4 '0' (toString (m + 1)).data))) ∧
    (∀ (flts : Nat → Option String) (now : String) (input : DocumentInput)
        (resp : DocumentCreateResponse) (db1 : DB),
        flts 1 = flt →
        (input.CertificateNo = "" ∨ TrimSpace input.CertificateNo = "") →
        documentCreate flts now db (.ok input) = (.ok resp, db1) →
        getNextCertificateNumber flt db = .ok resp.certificate_number ∧
          ∃ row : Document, db1.documents = db.documents ++ [row] ∧
            row.CertificateNo = some resp.certificate_number) := by
  obtain ⟨hflt, hr, hbound⟩ := selectMaxCertificate_ok hscan
  have hnext : ∀ M : Int, r = some M →
      getNextCertificateNumber flt db = .ok (sprintfZeroPad 4 (wrapInt64 (M + 1))) := by
    intro M hM
    unfold getNextCertificateNumber
    rw [hscan, hM]
  have hsome : (∃ d ∈ db.documents, ∃ c, d.CertificateNo = some c ∧ isNumericText c = true) →
      ∃ m : Nat,
          (∃ d ∈ db.documents, ∃ c, d.CertificateNo = some c ∧ isNumericText c = true ∧
            decimalValue c.data = m) ∧
          (∀ d ∈ db.documents, ∀ c, d.CertificateNo = some c → isNumericText c = true →
            decimalValue c.data ≤ m) ∧
          getNextCertificateNumber flt db =
            .ok (String.mk (List.leftpad 4 '0' (toString (m + 1)).data)) := by
    rintro ⟨d, hd, c, hc, hn⟩
    have hmem : c ∈ numericCertificates db.documents := mem_numericCertificates.mpr ⟨d, hd, hc, hn⟩
    cases hr2 : r with
    | none =>
      rw [hr2] at hr
      have := sqlMax_eq_none.mp hr.symm
      simp only [List.map_eq_nil_iff] at this
      rw [this] at hmem
      simp at hmem
    | some M =>
      rw [hr2] at hr
      obtain ⟨hM, hle⟩ := sqlMax_eq_some hr.symm
      obtain ⟨c1, hc1, hM1⟩ := List.mem_map.mp hM
      obtain ⟨d1, hd1, hcert1, hn1⟩ := mem_numericCertificates.mp hc1
      refine ⟨decimalValue c1.data, ⟨d1, hd1, c1, hcert1, hn1, rfl⟩, ?_, ?_⟩
      · intro d2 hd2 c2 hc2 hn2
        have h2 : c2 ∈ numericCertificates db.documents :=
          mem_numericCertificates.mpr ⟨d2, hd2, hc2, hn2⟩
        have := hle _ (List.mem_map.mpr ⟨c2, h2, rfl⟩)
        rw [← hM1] at this
        exact_mod_cast this
      · rw [hnext M hr2, ← hM1]
        have hb := hbound c1 hc1
        rw [wrapInt64_of_range (by omega) (by omega)]
        have : ((decimalValue c1.data : Int) + 1) = ((decimalValue c1.data + 1 : Nat) : Int) := by
          push_cast; rfl
        rw [this, sprintfZeroPad_natCast]
  refine ⟨?_, hsome, ?_⟩
  · intro hnone
    have hnil : numericCertificates db.documents = [] := by
      apply List.eq_nil_iff_forall_not_mem.mpr
      intro c hc
      obtain ⟨d, hd, hcert, hn⟩ := mem_numericCertificates.mp hc
      rw [hnone d hd c hcert] at hn
      exact Bool.false_ne_true hn
    unfold getNextCertificateNumber
    rw [hscan, hr, hnil]
    rfl
  · intro flts now input resp db1 hf hblank hcreate
    obtain ⟨h1, _, row, hrow, hcert, _⟩ := documentCreate_ok hcreate
    have hassign : getNextCertificateNumber flt db = .ok resp.certificate_number := by
      rw [h1]
      unfold assignCertificateNo
      rw [if_pos hblank, hf]
      cases hr2 : r with
      | none =>
        have : getNextCertificateNumber flt db = .ok "0001" := by
          unfold getNextCertificateNumber
          rw [hscan, hr2]
        rw [this]
      | some M => rw [hnext M hr2]
    exact ⟨hassign, row, hrow, hcert⟩

/-- Witness of C1 on the sample store: the largest numeric certificate number
is 7 and the creation with a blank number returns "0008". -/
theorem getNextCertificateNumber_spec_witness :
    selectMaxCertificate none sampleDB = .ok (some 7) ∧
      getNextCertificateNumber none sampleDB = .ok "0008" :=
  ⟨rfl,
   ((getNextCertificateNumber_spec none sampleDB (some 7) rfl).2.2 noFault
      "2024-04-01T09:00:00Z" (sampleInput "12345678901234" "")
      { status := "success", message := "Guvohnoma muvaffaqiyatli yaratildi",
        certificate_number := "0008", commission_number := "15" }
      { sampleDB with
        documents := sampleDB.documents ++
          [insertedDocument 3 "2024-04-01T09:00:00Z"
            { sampleInput "12345678901234" "0008" with CommissionNo := "15" }]
        documentsSeq := 3 }
      rfl (Or.inl rfl) (by decide)).1⟩

/-! ## Student references -/

theorem length_pos_of_ne_empty {s : String} (h : s ≠ "") : s.length > 0 := by
  rcases s with ⟨l⟩
  cases l with
  | nil => exact absurd rfl h
  | cons c cs => simp [String.length]

theorem ne_empty_of_trimSpace_ne {s : String} (h : TrimSpace s ≠ "") : s ≠ "" := by
  intro hs
  subst hs
  exact h rfl

theorem studentExists_iff (db : DB) (ref : String) :
    db.students.any (fun s => decide (s.JSHSHIR = ref)) = true ↔
      ∃ s ∈ db.students, s.JSHSHIR = ref := by
  simp [List.any_eq_true]

theorem checkStudent_of_ref (db : DB) (ref : String) (h : TrimSpace ref ≠ "") :
    checkStudent none db ref =
      if db.students.any (fun s => decide (s.JSHSHIR = TrimSpace ref)) then none
      else some (404, "Talaba topilmadi") := by
  unfold checkStudent studentExists
  rw [if_pos ⟨ne_empty_of_trimSpace_ne h, length_pos_of_ne_empty h⟩]
  cases db.students.any (fun s => decide (s.JSHSHIR = TrimSpace ref)) <;> rfl

theorem map_ite_eq_self {α : Type} (l : List α) (p : α → Prop) [DecidablePred p] (f : α → α)
    (h : ∀ a ∈ l, ¬ p a) : l.map (fun a => if p a then f a else a) = l := by
  induction l with
  | nil => rfl
  | cons a as ih =>
    simp only [List.map_cons, if_neg (h a (List.mem_cons_self _ _))]
    rw [ih (fun b hb => h b (List.mem_cons_of_mem _ hb))]

theorem filter_length_eq_zero {α : Type} (l : List α) (p : α → Prop) [DecidablePred p] :
    (l.filter (fun a => decide (p a))).length = 0 ↔ ∀ a ∈ l, ¬ p a := by
  rw [List.length_eq_zero, List.filter_eq_nil_iff]
  simp

theorem documentCreate_student (flts : Nat → Option String) (now : String) (db : DB)
    (input : DocumentInput) (href : TrimSpace input.StudentJSHSHIR ≠ "") (h0 : flts 0 = none) :
    ((documentCreate flts now db (.ok input)).1.code = 404 ↔
        ¬ ∃ s ∈ db.students, s.JSHSHIR = TrimSpace input.StudentJSHSHIR) ∧
      ((documentCreate flts now db (.ok input)).1.code = 404 →
        (documentCreate flts now db (.ok input)).2 = db) := by
  unfold documentCreate
  simp only [h0, checkStudent_of_ref db _ href]
  rw [← studentExists_iff]
  cases db.students.any (fun s => decide (s.JSHSHIR = TrimSpace input.StudentJSHSHIR))
  · simp [Response.code]
  · simp only [if_true]
    unfold insertDocument
    cases flts 3 <;> simp [Response.code]

theorem documentUpdate_student (flts : Nat → Option String) (db : DB) (idStr : String) (id : Int)
    (input : DocumentInput) (hid : Atoi idStr = some id)
    (href : TrimSpace input.StudentJSHSHIR ≠ "") (h0 : flts 0 = none) (h1 : flts 1 = none) :
    ((documentUpdate flts db idStr (.ok input)).1 = .error 404 "Talaba topilmadi" ↔
        ¬ ∃ s ∈ db.students, s.JSHSHIR = TrimSpace input.StudentJSHSHIR) ∧
      ((documentUpdate flts db idStr (.ok input)).1.code = 404 ↔
        (¬ ∃ s ∈ db.students, s.JSHSHIR = TrimSpace input.StudentJSHSHIR) ∨
          ∀ d ∈ db.documents, d.ID ≠ id) ∧
      ((documentUpdate flts db idStr (.ok input)).1.code = 404 →
        (documentUpdate flts db idStr (.ok input)).2 = db) := by
  unfold documentUpdate
  simp only [hid, h0, h1, checkStudent_of_ref db _ href, updateDocument]
  rw [← studentExists_iff]
  cases db.students.any (fun s => decide (s.JSHSHIR = TrimSpace input.StudentJSHSHIR))
  · simp [Response.code]
  · simp only [if_true]
    by_cases hrows : (db.documents.filter (fun d => decide (d.ID = id))).length = 0
    · have hno : ∀ d ∈ db.documents, ¬ d.ID = id := (filter_length_eq_zero _ _).mp hrows
      simp only [hrows, if_true, Response.code, map_ite_eq_self _ _ _ hno]
      refine ⟨by simp, ?_, by simp⟩
      simp only [true_iff]
      exact Or.inr hno
    · have hsome : ¬ ∀ d ∈ db.documents, ¬ d.ID = id := fun h =>
        hrows ((filter_length_eq_zero _ _).mpr h)
      simp only [hrows, if_false, Response.code]
      refine ⟨by simp, ?_, by simp⟩
      constructor
      · intro h; exact absurd h (by decide)
      · rintro (h | h)
        · exact absurd trivial h
        · exact absurd h hsome

theorem invoiceCreate_student (flts : Nat → Option String) (now1 now2 : Nat) (now : String)
    (db : DB) (input : InvoiceInput) (href : input.StudentJSHSHIR ≠ "")
    (hamount : 0 < input.Amount) (h0 : flts 0 = none) :
    ((invoiceCreate flts now1 now2 now db (.ok input)).1.code = 404 ↔
        ¬ ∃ s ∈ db.students, s.JSHSHIR = TrimSpace input.StudentJSHSHIR) ∧
      ((invoiceCreate flts now1 now2 now db (.ok input)).1.code = 404 →
        (invoiceCreate flts now1 now2 now db (.ok input)).2 = db) := by
  unfold invoiceCreate
  have hval : ¬ (input.StudentJSHSHIR = "" ∨ input.Amount ≤ 0) := by
    rintro (h | h)
    · exact href h
    · exact absurd hamount (not_lt.mpr h)
  simp only [if_neg hval, h0, selectStudentName]
  cases hf : db.students.find? (fun s => decide (s.JSHSHIR = TrimSpace input.StudentJSHSHIR)) with
  | none =>
    simp only [Response.code, true_iff, forall_true_left, and_true]
    rintro ⟨s, hs, heq⟩
    have := List.find?_eq_none.mp hf s hs
    simp [heq] at this
  | some st =>
    have hmem : st ∈ db.students := List.mem_of_find?_eq_some hf
    have hst : st.JSHSHIR = TrimSpace input.StudentJSHSHIR := by
      simpa using List.find?_some hf
    have hex : ∃ s ∈ db.students, s.JSHSHIR = TrimSpace input.StudentJSHSHIR := ⟨st, hmem, hst⟩
    simp only [insertInvoice]
    cases flts 1 <;> simp [Response.code, hex]

/-- C2 as stated fails for `documentUpdate`: on the sample store the student
reference of the request resolves and no storage call errors, yet the update
of the id 99, which no document has, fails with 404. -/
theorem documentUpdate_notFound_counterexample :
    ¬ ((documentUpdate noFault sampleDB "99"
          (.ok (sampleInput "12345678901234" "0007"))).1.code = 404 ↔
        ¬ ∃ s ∈ sampleDB.students, s.JSHSHIR = TrimSpace "12345678901234") := by
  intro h
  have hc : (documentUpdate noFault sampleDB "99"
      (.ok (sampleInput "12345678901234" "0007"))).1.code = 404 := by decide
  exact h.mp hc ⟨sampleStudent, by simp [sampleDB], by decide⟩

/-- C2, amended: when the request carries a student reference and the student
lookup does not error, `documentCreate` and `invoiceCreate` fail with 404
exactly when the reference, surrounding white space removed, matches no
student; `documentUpdate` fails with the 404 of the student check exactly in
that case and fails with 404 at all exactly when the reference does not
resolve or no document has the id.  Every such 404 leaves the store as it
was. -/
theorem student_reference_notFound (db : DB) :
    (∀ (flts : Nat → Option String) (now : String) (input : DocumentInput),
        TrimSpace input.StudentJSHSHIR ≠ "" → flts 0 = none →
        ((documentCreate flts now db (.ok input)).1.code = 404 ↔
            ¬ ∃ s ∈ db.students, s.JSHSHIR = TrimSpace input.StudentJSHSHIR) ∧
          ((documentCreate flts now db (.ok input)).1.code = 404 →
            (documentCreate flts now db (.ok input)).2 = db)) ∧
    (∀ (flts : Nat → Option String) (idStr : String) (id : Int) (input : DocumentInput),
        Atoi idStr = some id → TrimSpace input.StudentJSHSHIR ≠ "" →
        flts 0 = none → flts 1 = none →
        ((documentUpdate flts db idStr (.ok input)).1 = .error 404 "Talaba topilmadi" ↔
            ¬ ∃ s ∈ db.students, s.JSHSHIR = TrimSpace input.StudentJSHSHIR) ∧
          ((documentUpdate flts db idStr (.ok input)).1.code = 404 ↔
            (¬ ∃ s ∈ db.students, s.JSHSHIR = TrimSpace input.StudentJSHSHIR) ∨
              ∀ d ∈ db.documents, d.ID ≠ id) ∧
          ((documentUpdate flts db idStr (.ok input)).1.code = 404 →
            (documentUpdate flts db idStr (.ok input)).2 = db)) ∧
    (∀ (flts : Nat → Option String) (now1 now2 : Nat) (now : String) (input : InvoiceInput),
        input.StudentJSHSHIR ≠ "" → 0 < input.Amount → flts 0 = none →
        ((invoiceCreate flts now1 now2 now db (.ok input)).1.code = 404 ↔
            ¬ ∃ s ∈ db.students, s.JSHSHIR = TrimSpace input.StudentJSHSHIR) ∧
          ((invoiceCreate flts now1 now2 now db (.ok input)).1.code = 404 →
            (invoiceCreate flts now1 now2 now db (.ok input)).2 = db)) :=
  ⟨fun flts now input href h0 => documentCreate_student flts now db input href h0,
   fun flts idStr id input hid href h0 h1 =>
     documentUpdate_student flts db idStr id input hid href h0 h1,
   fun flts now1 now2 now input href hamount h0 =>
     invoiceCreate_student flts now1 now2 now db input href hamount h0⟩

/-- Witness of C2: a creation for the unknown student "999" on the sample
store fails with 404 and leaves the store as it was. -/
theorem student_reference_notFound_witness :
    TrimSpace (sampleInput "999" "").StudentJSHSHIR ≠ "" ∧
      (documentCreate noFault "2024-04-01T09:00:00Z" sampleDB (.ok (sampleInput "999" ""))).1.code
        = 404 ∧
      (documentCreate noFault "2024-04-01T09:00:00Z" sampleDB (.ok (sampleInput "999" ""))).2
        = sampleDB :=
  ⟨by decide, by decide,
   ((student_reference_notFound sampleDB).1 noFault "2024-04-01T09:00:00Z"
      (sampleInput "999" "") (by decide) rfl).2 (by decide)⟩

/-! ## Invoice numbers -/

theorem toString_natCast (n : Nat) : toString ((n : Nat) : Int) = toString n := rfl

theorem invoiceCreate_ok {flts : Nat → Option String} {now1 now2 : Nat} {now : String}
    {db db1 : DB} {body : Except String InvoiceInput} {resp : InvoiceCreateResponse}
    (h : invoiceCreate flts now1 now2 now db body = (.ok resp, db1)) :
    ∃ (input : InvoiceInput) (studentName : String),
      body = .ok input ∧ flts 1 = none ∧
      resp.id = ((db.invoicesSeq + 1 : Nat) : Int) ∧
      resp.invoice_number = "INV-" ++ sprintfZeroPad 6 resp.id ∧
      db1 = updateInvoiceNumber (flts 2)
        { db with
          invoices := db.invoices ++
            [{ ID := resp.id, StudentJSHSHIR := TrimSpace input.StudentJSHSHIR,
               StudentName := studentName, Description := input.Description,
               Amount := input.Amount, Status := statusPending, InvoiceNumber := none,
               CreatedAt := now, IssueDate := some (formatDate now1),
               DueDate := some (formatDate (now2 + 30)), PaymentDate := none }]
          invoicesSeq := db.invoicesSeq + 1 } resp.invoice_number resp.id := by
  unfold invoiceCreate at h
  cases body with
  | error e => simp at h
  | ok input =>
    simp only at h
    by_cases hval : input.StudentJSHSHIR = "" ∨ input.Amount ≤ 0
    · simp [if_pos hval] at h
    · simp only [if_neg hval] at h
      cases hs : selectStudentName (flts 0) db (TrimSpace input.StudentJSHSHIR) with
      | error e =>
        cases e with
        | noRows => simp [hs] at h
        | driver msg =>
          simp only [hs, insertInvoice] at h
          cases h1 : flts 1 with
          | some e1 => simp [h1] at h
          | none =>
            simp only [h1, Prod.mk.injEq, Response.ok.injEq] at h
            obtain ⟨hr, hd⟩ := h
            subst hr
            exact ⟨input, _, rfl, rfl, rfl, rfl, hd.symm⟩
        | scanNull k =>
          simp only [hs, insertInvoice] at h
          cases h1 : flts 1 with
          | some e1 => simp [h1] at h
          | none =>
            simp only [h1, Prod.mk.injEq, Response.ok.injEq] at h
            obtain ⟨hr, hd⟩ := h
            subst hr
            exact ⟨input, _, rfl, rfl, rfl, rfl, hd.symm⟩
        | outOfRange t =>
          simp only [hs, insertInvoice] at h
          cases h1 : flts 1 with
          | some e1 => simp [h1] at h
          | none =>
            simp only [h1, Prod.mk.injEq, Response.ok.injEq] at h
            obtain ⟨hr, hd⟩ := h
            subst hr
            exact ⟨input, _, rfl, rfl, rfl, rfl, hd.symm⟩
      | ok name =>
        simp only [hs, insertInvoice] at h
        cases h1 : flts 1 with
        | some e1 => simp [h1] at h
        | none =>
          simp only [h1, Prod.mk.injEq, Response.ok.injEq] at h
          obtain ⟨hr, hd⟩ := h
          subst hr
          exact ⟨input, _, rfl, rfl, rfl, rfl, hd.symm⟩

/-- C3: a successful `invoiceCreate` returns the id that the store assigned
to the new row and, as `invoice_number`, "INV-" followed by that id in
decimal padded with zeros on the left to six digits; the new row is the last
one of the table and carries this invoice number when the write-back did not
fail. -/
theorem invoiceCreate_invoice_number (flts : Nat → Option String) (now1 now2 : Nat)
    (now : String) (db db1 : DB) (body : Except String InvoiceInput)
    (resp : InvoiceCreateResponse)
    (h : invoiceCreate flts now1 now2 now db body = (.ok resp, db1)) :
    resp.id = ((db.invoicesSeq + 1 : Nat) : Int) ∧
      resp.invoice_number = "INV-" ++ String.mk (List.leftpad 6 '0' (toString resp.id).data) ∧
      ∃ (rows : List InvoiceRow) (row : InvoiceRow),
        db1.invoices = rows ++ [row] ∧ rows.length = db.invoices.length ∧
          row.ID = resp.id ∧
          (flts 2 = none → row.InvoiceNumber = some resp.invoice_number) := by
  obtain ⟨input, studentName, _, _, hid, hnum, hdb⟩ := invoiceCreate_ok h
  refine ⟨hid, ?_, ?_⟩
  · rw [hnum, hid, sprintfZeroPad_natCast, toString_natCast]
  · rw [hdb]
    unfold updateInvoiceNumber
    cases h2 : flts 2 with
    | some e =>
      exact ⟨db.invoices, _, rfl, rfl, rfl, fun hc => by simp at hc⟩
    | none =>
      simp only [List.map_append, List.map_cons, List.map_nil, if_true]
      exact ⟨_, _, rfl, by simp, rfl, fun _ => rfl⟩

/-- Witness of C3: the first invoice of the sample store gets the id 1 and
the number "INV-000001". -/
theorem invoiceCreate_invoice_number_witness :
    (invoiceCreate noFault 19800 19800 "2024-03-18T08:00:00Z" sampleDB
        (.ok { StudentJSHSHIR := "12345678901234", Description := "Kurs", Amount := 150000 })).1
      = .ok { success := true, id := 1, invoice_number := "INV-000001",
              student_name := "Ali Valiyev", message := "Invoyis muvaffaqiyatli yaratildi" } ∧
    (1 : Int) = ((sampleDB.invoicesSeq + 1 : Nat) : Int) ∧
    "INV-000001" = "INV-" ++ String.mk (List.leftpad 6 '0' (toString (1 : Int)).data) :=
  ⟨by decide,
   (invoiceCreate_invoice_number noFault 19800 19800 "2024-03-18T08:00:00Z" sampleDB
      (invoiceCreate noFault 19800 19800 "2024-03-18T08:00:00Z" sampleDB
        (.ok { StudentJSHSHIR := "12345678901234", Description := "Kurs", Amount := 150000 })).2
      (.ok { StudentJSHSHIR := "12345678901234", Description := "Kurs", Amount := 150000 })
      { success := true, id := 1, invoice_number := "INV-000001",
        student_name := "Ali Valiyev", message := "Invoyis muvaffaqiyatli yaratildi" }
      (by decide)).1,
   (invoiceCreate_invoice_number noFault 19800 19800 "2024-03-18T08:00:00Z" sampleDB
      (invoiceCreate noFault 19800 19800 "2024-03-18T08:00:00Z" sampleDB
        (.ok { StudentJSHSHIR := "12345678901234", Description := "Kurs", Amount := 150000 })).2
      (.ok { StudentJSHSHIR := "12345678901234", Description := "Kurs", Amount := 150000 })
      { success := true, id := 1, invoice_number := "INV-000001",
        student_name := "Ali Valiyev", message := "Invoyis muvaffaqiyatli yaratildi" }
      (by decide)).2.1⟩

/-! ## Invoice status -/

theorem validStatuses_contains (s : String) :
    validStatuses.contains s = true ↔
      s = statusPending ∨ s = statusPaid ∨ s = statusCancelled := by
  simp [validStatuses]

/-- C4: for an id that some invoice has and an accepted status `s`,
`invoiceUpdateStatus` succeeds and the store after it is the store before it
with, on every invoice of that id, the status `s` and the payment date set to
the current date when `s` is the paid status and to NULL otherwise, whatever
they were; no other column, no other invoice and no other table changes. -/
theorem invoiceUpdateStatus_accepted (today : Nat) (db : DB) (idStr : String) (id : Int)
    (s : String) (hid : Atoi idStr = some id)
    (hs : s = statusPending ∨ s = statusPaid ∨ s = statusCancelled)
    (hex : ∃ i ∈ db.invoices, i.ID = id) :
    invoiceUpdateStatus none today db idStr (.ok s) =
      (.ok { success := true, message := "Invoyis holati yangilandi", status := s },
       { db with
         invoices := db.invoices.map (fun i =>
           if i.ID = id then
             { i with
               Status := s
               PaymentDate := if s = statusPaid then some (formatDate today) else none }
           else i) }) := by
  unfold invoiceUpdateStatus
  have hc : validStatuses.contains s = true := (validStatuses_contains s).mpr hs
  have hrows : ¬ (db.invoices.filter (fun i => decide (i.ID = id))).length = 0 := by
    intro h0
    obtain ⟨i, hi, hii⟩ := hex
    exact (filter_length_eq_zero _ _).mp h0 i hi hii
  simp only [hid, hc, Bool.not_true, Bool.false_eq_true, if_false, updateInvoiceStatus, hrows]

/-- Witness of C4: an unpaid invoice is marked as paid on day 19801
(2024-03-19). -/
theorem invoiceUpdateStatus_accepted_witness :
    invoiceUpdateStatus none 19801
        { sampleDB with
          invoices := [{ ID := 1, StudentJSHSHIR := "12345678901234", StudentName := "Ali Valiyev",
                         Description := "Kurs", Amount := 150000, Status := statusPending,
                         InvoiceNumber := some "INV-000001", CreatedAt := "2024-03-18T08:00:00Z",
                         IssueDate := some "2024-03-18", DueDate := some "2024-04-17",
                         PaymentDate := none }] }
        "1" (.ok statusPaid) =
      (.ok { success := true, message := "Invoyis holati yangilandi", status := statusPaid },
       { sampleDB with
          invoices := [{ ID := 1, StudentJSHSHIR := "12345678901234", StudentName := "Ali Valiyev",
                         Description := "Kurs", Amount := 150000, Status := statusPaid,
                         InvoiceNumber := some "INV-000001", CreatedAt := "2024-03-18T08:00:00Z",
                         IssueDate := some "2024-03-18", DueDate := some "2024-04-17",
                         PaymentDate := some "2024-03-19" }] }) :=
  invoiceUpdateStatus_accepted 19801 _ "1" 1 statusPaid (by decide) (Or.inr (Or.inl rfl))
    ⟨_, List.mem_singleton.mpr rfl, rfl⟩

/-- C5: a status outside the three fixed values is answered with 400 and the
store is left as it was, whatever the id, the store and the outcome of the
storage call; an accepted status with an id that no invoice has is answered
with 404 and the store is left as it was. -/
theorem invoiceUpdateStatus_rejected (flt : Option String) (today : Nat) (db : DB)
    (idStr : String) (s : String) :
    ((s ≠ statusPending ∧ s ≠ statusPaid ∧ s ≠ statusCancelled) →
        (invoiceUpdateStatus flt today db idStr (.ok s)).1.code = 400 ∧
          (invoiceUpdateStatus flt today db idStr (.ok s)).2 = db) ∧
    (∀ id : Int, (s = statusPending ∨ s = statusPaid ∨ s = statusCancelled) →
        Atoi idStr = some id → flt = none → (∀ i ∈ db.invoices, i.ID ≠ id) →
        invoiceUpdateStatus flt today db idStr (.ok s) =
          (.error 404 "Invoice not found", db)) := by
  constructor
  · rintro ⟨h1, h2, h3⟩
    have hc : validStatuses.contains s = false := by
      rw [← Bool.not_eq_true, validStatuses_contains]
      rintro (h | h | h)
      · exact h1 h
      · exact h2 h
      · exact h3 h
    unfold invoiceUpdateStatus
    cases Atoi idStr with
    | none => exact ⟨rfl, rfl⟩
    | some id =>
      simp only [hc, Bool.not_false, if_true, Response.code, and_self]
  · intro id hs hid hflt hno
    subst hflt
    unfold invoiceUpdateStatus
    have hc : validStatuses.contains s = true := (validStatuses_contains s).mpr hs
    have hrows : (db.invoices.filter (fun i => decide (i.ID = id))).length = 0 :=
      (filter_length_eq_zero _ _).mpr hno
    simp only [hid, hc, Bool.not_true, Bool.false_eq_true, if_false, updateInvoiceStatus, hrows,
      if_true, map_ite_eq_self _ _ _ hno]

/-- Witness of C5: the status "paid" is none of the fixed values. -/
theorem invoiceUpdateStatus_rejected_witness :
    ("paid" ≠ statusPending ∧ "paid" ≠ statusPaid ∧ "paid" ≠ statusCancelled) ∧
      (invoiceUpdateStatus none 19801 sampleDB "1" (.ok "paid")).1.code = 400 ∧
      (invoiceUpdateStatus none 19801 sampleDB "1" (.ok "paid")).2 = sampleDB :=
  ⟨by decide,
   (invoiceUpdateStatus_rejected none 19801 sampleDB "1" "paid").1 (by decide)⟩

/-! ## The payment date invariant -/

theorem invoiceCreate_state (flts : Nat → Option String) (now1 now2 : Nat) (now : String)
    (db : DB) (body : Except String InvoiceInput) :
    (invoiceCreate flts now1 now2 now db body).2 = db ∨
      ∃ (resp : InvoiceCreateResponse),
        invoiceCreate flts now1 now2 now db body =
          (.ok resp, (invoiceCreate flts now1 now2 now db body).2) := by
  cases h : (invoiceCreate flts now1 now2 now db body).1 with
  | ok resp => exact Or.inr ⟨resp, by rw [← h]⟩
  | error c m =>
    left
    unfold invoiceCreate at h ⊢
    cases body with
    | error e => rfl
    | ok input =>
      simp only at h ⊢
      by_cases hval : input.StudentJSHSHIR = "" ∨ input.Amount ≤ 0
      · simp only [if_pos hval]
      · simp only [if_neg hval] at h ⊢
        cases hs : selectStudentName (flts 0) db (TrimSpace input.StudentJSHSHIR) with
        | error e =>
          cases e <;> simp only [hs, insertInvoice] at h ⊢ <;>
            cases h1 : flts 1 <;> simp_all
        | ok name =>
          simp only [hs, insertInvoice] at h ⊢
          cases h1 : flts 1 <;> simp_all

theorem invoiceCreate_invariant (flts : Nat → Option String) (now1 now2 : Nat) (now : String)
    (db : DB) (body : Except String InvoiceInput) (h : PaymentDateInvariant db) :
    PaymentDateInvariant (invoiceCreate flts now1 now2 now db body).2 := by
  rcases invoiceCreate_state flts now1 now2 now db body with hsame | ⟨resp, hok⟩
  · rw [hsame]; exact h
  · obtain ⟨input, studentName, _, _, _, _, hdb⟩ := invoiceCreate_ok hok
    rw [hdb]
    unfold updateInvoiceNumber
    have hnew : ∀ i ∈ db.invoices ++
        [({ ID := resp.id, StudentJSHSHIR := TrimSpace input.StudentJSHSHIR,
            StudentName := studentName, Description := input.Description,
            Amount := input.Amount, Status := statusPending, InvoiceNumber := none,
            CreatedAt := now, IssueDate := some (formatDate now1),
            DueDate := some (formatDate (now2 + 30)), PaymentDate := none } : InvoiceRow)],
        (i.PaymentDate ≠ none ↔ i.Status = statusPaid) := by
      intro i hi
      rcases List.mem_append.mp hi with hi | hi
      · exact h i hi
      · rw [List.mem_singleton.mp hi]
        simp only [ne_eq, not_true_eq_false, false_iff]
        decide
    cases flts 2 with
    | some e => exact hnew
    | none =>
      intro i hi
      simp only [List.mem_map] at hi
      obtain ⟨j, hj, hji⟩ := hi
      have := hnew j hj
      by_cases hid : j.ID = resp.id
      · rw [if_pos hid] at hji
        rw [← hji]
        exact this
      · rw [if_neg hid] at hji
        rw [← hji]
        exact this

theorem invoiceUpdateStatus_invariant (flt : Option String) (today : Nat) (db : DB)
    (idStr : String) (body : Except String String) (h : PaymentDateInvariant db) :
    PaymentDateInvariant (invoiceUpdateStatus flt today db idStr body).2 := by
  unfold invoiceUpdateStatus
  cases Atoi idStr with
  | none => exact h
  | some id =>
    cases body with
    | error e => exact h
    | ok s =>
      simp only
      by_cases hc : validStatuses.contains s = true
      · simp only [hc, Bool.not_true, Bool.false_eq_true, if_false, updateInvoiceStatus]
        cases flt with
        | some e => exact h
        | none =>
          have hmap : PaymentDateInvariant
              { db with
                invoices := db.invoices.map (fun i =>
                  if i.ID = id then
                    { i with
                      Status := s
                      PaymentDate := if s = statusPaid then some (formatDate today) else none }
                  else i) } := by
            intro i hi
            simp only [List.mem_map] at hi
            obtain ⟨j, hj, hji⟩ := hi
            by_cases hid : j.ID = id
            · rw [if_pos hid] at hji
              rw [← hji]
              by_cases hp : s = statusPaid <;> simp [hp]
            · rw [if_neg hid] at hji
              rw [← hji]
              exact h j hj
          simp only
          split <;> exact hmap
      · simp only [Bool.not_eq_true] at hc
        simp only [hc, Bool.not_false, if_true]
        exact h

theorem invoiceDelete_invariant (toInteger : String → Except DbError Int)
    (flts : Nat → Option String) (db : DB) (id : String) (h : PaymentDateInvariant db) :
    PaymentDateInvariant (invoiceDelete toInteger flts db id).2 := by
  have hfilter : ∀ n : Int, PaymentDateInvariant
      { db with invoices := db.invoices.filter (fun i => !decide (i.ID = n)) } := by
    intro n i hi
    exact h i (List.mem_of_mem_filter hi)
  unfold invoiceDelete
  cases flts 0 with
  | some e => exact h
  | none =>
    cases toInteger id with
    | error e => exact h
    | ok n =>
      simp only
      split
      · exact h
      · cases flts 1 with
        | some e => exact h
        | none =>
          simp only
          split <;> exact hfilter n

/-- C6: in every state that `invoiceCreate`, `invoiceUpdateStatus` and
`invoiceDelete` reach from a store without invoices, whatever their
arguments and the outcome of their storage calls, every stored invoice has a
non-NULL payment date if and only if its status is the paid one. -/
theorem reachable_paymentDate_iff_paid (db : DB) (h : Reachable db) :
    ∀ i ∈ db.invoices, (i.PaymentDate ≠ none ↔ i.Status = statusPaid) := by
  have hinv : PaymentDateInvariant db := by
    induction h with
    | init db h0 =>
      intro i hi
      rw [h0] at hi
      exact absurd hi (List.not_mem_nil i)
    | create db flts now1 now2 now body _ ih =>
      exact invoiceCreate_invariant flts now1 now2 now db body ih
    | updateStatus db flt today idStr body _ ih =>
      exact invoiceUpdateStatus_invariant flt today db idStr body ih
    | delete db toInteger flts id _ ih =>
      exact invoiceDelete_invariant toInteger flts db id ih
  exact hinv

theorem reachable_paidDB : Reachable paidDB := by
  have h := Reachable.updateStatus _ none 19801 "1" (.ok statusPaid)
    (Reachable.create sampleDB noFault 19800 19800 "2024-03-18T08:00:00Z" (.ok sampleInvoiceInput)
      (Reachable.init sampleDB rfl))
  have e : (invoiceUpdateStatus none 19801
      (invoiceCreate noFault 19800 19800 "2024-03-18T08:00:00Z" sampleDB
        (.ok sampleInvoiceInput)).2 "1" (.ok statusPaid)).2 = paidDB := by decide
  rw [e] at h
  exact h

/-- Witness of C6: the sample invoice, created and then paid, carries a
payment date and the paid status. -/
theorem reachable_paymentDate_iff_paid_witness :
    Reachable paidDB ∧
      ((sampleInvoice statusPaid (some "2024-03-19")).PaymentDate ≠ none ↔
        (sampleInvoice statusPaid (some "2024-03-19")).Status = statusPaid) :=
  ⟨reachable_paidDB,
   reachable_paymentDate_iff_paid paidDB reachable_paidDB
     (sampleInvoice statusPaid (some "2024-03-19")) (List.mem_singleton.mpr rfl)⟩

/-! ## Verification lookup -/

theorem toDigitsCore_ne_nil (b f n : Nat) (ds : List Char) (h : ds ≠ []) :
    Nat.toDigitsCore b f n ds ≠ [] := by
  induction f generalizing n ds with
  | zero => simpa [Nat.toDigitsCore] using h
  | succ f ih =>
    simp only [Nat.toDigitsCore]
    split
    · simp
    · exact ih _ _ (by simp)

theorem toString_nat_ne_empty (n : Nat) : toString n ≠ "" := by
  intro h
  have hd : (toString n).data = [] := by rw [h]
  have hne : Nat.toDigits 10 n ≠ [] := by
    unfold Nat.toDigits
    simp only [Nat.toDigitsCore]
    split
    · simp
    · exact toDigitsCore_ne_nil _ _ _ _ (by simp)
  exact hne hd

theorem toString_int_ne_empty (n : Int) : toString n ≠ "" := by
  cases n with
  | ofNat m => exact toString_nat_ne_empty m
  | negSucc m =>
    intro h
    have hd : (toString (Int.negSucc m)).data = [] := by rw [h]
    have : (toString (Int.negSucc m)).data = '-' :: (toString (m + 1)).data := rfl
    rw [this] at hd
    exact List.cons_ne_nil _ _ hd

theorem scanString_bind_ok {β : Type} {k : Nat} {name : String} {v : Option String}
    {f : String → Except DbError β} {out : β}
    (h : (scanString k name v >>= f) = .ok out) : ∃ s, v = some s ∧ f s = .ok out := by
  cases v with
  | none => simp [scanString, bind, Except.bind] at h
  | some s => exact ⟨s, rfl, by simpa [scanString, bind, Except.bind] using h⟩

theorem scanInt_bind_ok {β : Type} {k : Nat} {name : String} {v : Option Int}
    {f : Int → Except DbError β} {out : β}
    (h : (scanInt k name v >>= f) = .ok out) : ∃ n, v = some n ∧ f n = .ok out := by
  cases v with
  | none => simp [scanInt, bind, Except.bind] at h
  | some n => exact ⟨n, rfl, by simpa [scanInt, bind, Except.bind] using h⟩

theorem scanVerify_ok {d : Document} {out : DocumentOutput} (h : scanVerify d = .ok out) :
    out.ID = d.ID ∧ d.CertificateNo = some out.CertificateNo := by
  unfold scanVerify at h
  obtain ⟨c, hc, h⟩ := scanString_bind_ok h
  obtain ⟨_, _, h⟩ := scanString_bind_ok h
  obtain ⟨_, _, h⟩ := scanString_bind_ok h
  obtain ⟨_, _, h⟩ := scanString_bind_ok h
  obtain ⟨_, _, h⟩ := scanString_bind_ok h
  obtain ⟨_, _, h⟩ := scanString_bind_ok h
  obtain ⟨_, _, h⟩ := scanString_bind_ok h
  obtain ⟨_, _, h⟩ := scanInt_bind_ok h
  obtain ⟨_, _, h⟩ := scanInt_bind_ok h
  obtain ⟨_, _, h⟩ := scanInt_bind_ok h
  obtain ⟨_, _, h⟩ := scanString_bind_ok h
  obtain ⟨_, _, h⟩ := scanString_bind_ok h
  simp only [pure, Except.pure, Except.ok.injEq] at h
  subst h
  exact ⟨rfl, hc⟩

theorem verifyHandler_of_unique (db : DB) (t : String) (d : Document) (out : DocumentOutput)
    (ht : t ≠ "") (hd : d ∈ db.documents) (hm : matchesToken t d = true)
    (huniq : ∀ r ∈ db.documents, matchesToken t r = true → r = d)
    (hscan : scanVerify d = .ok out) : verifyHandler none db t = .ok out := by
  have hfind : db.documents.find? (matchesToken t) = some d := by
    cases hf : db.documents.find? (matchesToken t) with
    | none =>
      have := List.find?_eq_none.mp hf d hd
      exact absurd hm this
    | some r =>
      rw [huniq r (List.mem_of_find?_eq_some hf) (List.find?_some hf)]
  unfold verifyHandler queryVerify
  rw [if_neg ht]
  simp only [hfind, hscan]

theorem verifyHandler_of_none (db : DB) (t : String) (ht : t ≠ "")
    (hno : ∀ d ∈ db.documents, d.CertificateNo ≠ some t ∧ toString d.ID ≠ t) :
    verifyHandler none db t = .error 404 "Certificate not found" := by
  have hfind : db.documents.find? (matchesToken t) = none := by
    apply List.find?_eq_none.mpr
    intro d hd
    have := hno d hd
    simp [matchesToken, this.1, this.2]
  unfold verifyHandler queryVerify
  rw [if_neg ht]
  simp only [hfind]

/-- C7 as stated fails for the empty certificate number: after
`documentUpdate` has stored "" as the certificate number of document 2, the
only document carrying "" or "2", the lookup of "" is answered with 400. -/
theorem verifyHandler_empty_certificate_counterexample :
    (∃ d ∈ emptyCertificateDB.documents, d.ID = 2 ∧ d.CertificateNo = some "" ∧
        ∀ r ∈ emptyCertificateDB.documents, r ≠ d →
          r.CertificateNo ≠ some "" ∧ r.CertificateNo ≠ some (toString d.ID) ∧
            toString r.ID ≠ "" ∧ toString r.ID ≠ toString d.ID) ∧
      verifyHandler none emptyCertificateDB "" = .error 400 "Missing certificate parameter" := by
  refine ⟨⟨updatedDocument (sampleInput "" "") (sampleDocument 2 "" "A-1"), by decide, rfl, rfl,
    by decide⟩, by decide⟩

/-- C7, amended: for a stored document whose certificate number `c` is not
empty and whose thirteen columns read by the lookup are not NULL, when no
other document has `c` or the text of its id as certificate number or as the
text of its id, `verifyHandler` succeeds on `c` and on the text of the id and
returns the same summary, that of the document; and for every non-empty token
that is no stored certificate number and no text of a stored id it answers
404. -/
theorem verifyHandler_lookup (db : DB) :
    (∀ (d : Document) (c : String) (out : DocumentOutput),
        d ∈ db.documents → d.CertificateNo = some c → c ≠ "" → scanVerify d = .ok out →
        (∀ r ∈ db.documents, r ≠ d →
          r.CertificateNo ≠ some c ∧ r.CertificateNo ≠ some (toString d.ID) ∧
            toString r.ID ≠ c ∧ toString r.ID ≠ toString d.ID) →
        verifyHandler none db c = .ok out ∧ verifyHandler none db (toString d.ID) = .ok out ∧
          out.ID = d.ID ∧ out.CertificateNo = c) ∧
    (∀ token : String, token ≠ "" →
        (∀ d ∈ db.documents, d.CertificateNo ≠ some token ∧ toString d.ID ≠ token) →
        verifyHandler none db token = .error 404 "Certificate not found") := by
  refine ⟨?_, fun token ht hno => verifyHandler_of_none db token ht hno⟩
  intro d c out hd hc hne hscan hother
  refine ⟨?_, ?_, ?_, ?_⟩
  · apply verifyHandler_of_unique db c d out hne hd (by simp [matchesToken, hc]) _ hscan
    intro r hr hm
    by_contra hrd
    have := hother r hr hrd
    simp [matchesToken, this.1, this.2.2.1] at hm
  · apply verifyHandler_of_unique db _ d out (toString_int_ne_empty d.ID) hd
      (by simp [matchesToken]) _ hscan
    intro r hr hm
    by_contra hrd
    have := hother r hr hrd
    simp [matchesToken, this.2.1, this.2.2.2] at hm
  · exact (scanVerify_ok hscan).1
  · have := (scanVerify_ok hscan).2
    rw [hc] at this
    exact (Option.some.inj this).symm

/-- Witness of C7: document 1 of the sample store is found by its
certificate number "0007" and by its id, with the same summary. -/
theorem verifyHandler_lookup_witness :
    verifyHandler none sampleDB "0007" = .ok sampleSummary ∧
      verifyHandler none sampleDB (toString (sampleDocument 1 "12345678901234" "0007").ID)
        = .ok sampleSummary ∧
      sampleSummary.ID = (sampleDocument 1 "12345678901234" "0007").ID ∧
      sampleSummary.CertificateNo = "0007" :=
  (verifyHandler_lookup sampleDB).1 (sampleDocument 1 "12345678901234" "0007") "0007"
    sampleSummary (by decide) rfl (by decide) rfl (by decide)

/-- C8, the code at the failing input: in `priorityDB` the token "1" is the
certificate number of document 2 and the text of the id of document 1, which
is stored first; `verifyHandler` returns the summary of document 1, whose
certificate number is "0001", not that of document 2. -/
theorem verifyHandler_priority_divergence :
    priorityDB.documents.map (fun d => (d.ID, d.CertificateNo)) =
        [(1, some "0001"), (2, some "1")] ∧
      verifyHandler none priorityDB "1" =
        .ok { DocumentOutput.zero with
              ID := 1, CertificateNo := "0001", StudentName := "Ali Valiyev",
              StudentJSHSHIR := "", CourseStart := "2024-01-10", CourseEnd := "2024-03-10",
              ExamDate := "2024-03-15", Categories := "A, B", CourseHours := 120,
              Grade1 := 5, Grade2 := 4, Status := "active", DirectorName := "Direktor" } := by
  constructor
  · decide
  · decide

/-! ## Document details -/

/-- C9: the outcome of `documentDetails` with an encoder that fails is the
outcome with any other encoder, except that the image is the empty string:
where the other encoder leads to a detail, the failing one leads to the same
detail with `qr_code_base64` empty, and where the row is found and scanned the
call succeeds with the scanned fields and the empty image. -/
theorem documentDetails_encoder_failure (encFail encode : String → Except String String)
    (flt : Option String) (db : DB) (idStr : String)
    (hfail : ∀ data : String, ∃ err : String, encFail data = .error err) :
    (∀ detail : DocumentDetail, documentDetails encode flt db idStr = .ok detail →
        documentDetails encFail flt db idStr = .ok { detail with QRCodeBase64 := "" }) ∧
    (∀ (code : Nat) (msg : String), documentDetails encode flt db idStr = .error code msg →
        documentDetails encFail flt db idStr = .error code msg) ∧
    (∀ (id : Int) (detail : DocumentDetail), Atoi idStr = some id →
        queryDocumentDetail flt db id = .ok detail →
        documentDetails encFail flt db idStr = .ok { detail with QRCodeBase64 := "" }) := by
  have hgen : ∀ data : String, ∃ err : String, generateQRCode encFail data = .error err := by
    intro data
    obtain ⟨err, herr⟩ := hfail data
    exact ⟨err, by simp [generateQRCode, herr]⟩
  refine ⟨?_, ?_, ?_⟩
  · intro detail h
    unfold documentDetails at h ⊢
    cases hid : Atoi idStr with
    | none => simp [hid] at h
    | some id =>
      simp only [hid] at h ⊢
      cases hq : queryDocumentDetail flt db id with
      | error e => cases e <;> simp [hq] at h
      | ok detail0 =>
        simp only [hq] at h ⊢
        obtain ⟨err, herr⟩ := hgen (qrData detail0)
        simp only [herr]
        cases he : generateQRCode encode (qrData detail0) with
        | error e2 =>
          simp only [he, Response.ok.injEq] at h
          rw [← h]
        | ok qr =>
          simp only [he, Response.ok.injEq] at h
          rw [← h]
  · intro code msg h
    unfold documentDetails at h ⊢
    cases hid : Atoi idStr with
    | none => simpa [hid] using h
    | some id =>
      simp only [hid] at h ⊢
      cases hq : queryDocumentDetail flt db id with
      | error e => cases e <;> simpa [hq] using h
      | ok detail0 =>
        simp only [hq] at h
        cases he : generateQRCode encode (qrData detail0) <;> simp [he] at h
  · intro id detail hid hq
    unfold documentDetails
    obtain ⟨err, herr⟩ := hgen (qrData detail)
    simp only [hid, hq, herr]

/-- Witness of C9: the details of document 1 of the sample store with the
failing encoder. -/
theorem documentDetails_encoder_failure_witness :
    documentDetails workingEncoder none sampleDB "1" = .ok (sampleDetail "iVBORw0KGgo=") ∧
      documentDetails failingEncoder none sampleDB "1" = .ok (sampleDetail "") :=
  ⟨by decide,
   (documentDetails_encoder_failure failingEncoder workingEncoder none sampleDB "1"
      (fun _ => ⟨"encoder fault", rfl⟩)).1 (sampleDetail "iVBORw0KGgo=") (by decide)⟩

/-- C10, the code at the failing input: document 2 of the sample store has
the empty student reference and every column set, and a document created for
no student has the same shape; `documentDetails` answers 500 for both, the
scan of the NULL birth date into a string being an error, while document 1,
whose student is in the registry, is returned. -/
theorem documentDetails_dangling_divergence :
    documentDetails workingEncoder none sampleDB "2" =
        .error 500 ("sql: Scan error on column index 16, name \"birth_date\": " ++
          "converting NULL to string is unsupported") ∧
      (documentDetails workingEncoder none
          (documentCreate noFault "2024-04-01T09:00:00Z" emptyDB (.ok (sampleInput "" ""))).2
          "1").code = 500 ∧
      (documentDetails workingEncoder none
          { sampleDB with documents := [sampleDocument 1 "999" "0007"] } "1").code = 500 ∧
      (documentDetails workingEncoder none sampleDB "1").code = 200 := by
  refine ⟨by decide, by decide, by decide, by decide⟩

/-! ## Validation of invoice requests -/

/-- C11: `invoiceCreate` answers 400 whenever the student reference of the
request is the empty string or the amount is at most 0, whatever the
registry, the clock and the outcome of the storage calls, and the store after
the call is the store before it. -/
theorem invoiceCreate_validation (flts : Nat → Option String) (now1 now2 : Nat) (now : String)
    (db : DB) (input : InvoiceInput) (h : input.StudentJSHSHIR = "" ∨ input.Amount ≤ 0) :
    invoiceCreate flts now1 now2 now db (.ok input) =
      (.error 400 "Missing required fields", db) := by
  unfold invoiceCreate
  simp only [if_pos h]

/-- Witness of C11: a request with the amount 0 for a student of the
registry. -/
theorem invoiceCreate_validation_witness :
    ((0 : ℚ) ≤ 0) ∧
      invoiceCreate noFault 19800 19800 "2024-03-18T08:00:00Z" sampleDB
          (.ok { StudentJSHSHIR := "12345678901234", Description := "Kurs", Amount := 0 }) =
        (.error 400 "Missing required fields", sampleDB) :=
  ⟨le_refl 0,
   invoiceCreate_validation noFault 19800 19800 "2024-03-18T08:00:00Z" sampleDB
     { StudentJSHSHIR := "12345678901234", Description := "Kurs", Amount := 0 }
     (Or.inr (le_refl 0))⟩

/-! ## Decimal text -/

theorem toDigitsCore_acc (f n : Nat) (ds : List Char) :
    Nat.toDigitsCore 10 f n ds = Nat.toDigitsCore 10 f n [] ++ ds := by
  induction f generalizing n ds with
  | zero => simp [Nat.toDigitsCore]
  | succ f ih =>
    simp only [Nat.toDigitsCore]
    split
    · simp
    · rw [ih _ (Nat.digitChar (n % 10) :: ds), ih _ [Nat.digitChar (n % 10)]]
      simp

theorem toDigitsCore_fuel (n : Nat) : ∀ f : Nat, n < f →
    Nat.toDigitsCore 10 f n [] = Nat.toDigits 10 n := by
  induction n using Nat.strong_induction_on with
  | _ n ih =>
    intro f hf
    obtain ⟨k, rfl⟩ : ∃ k, f = k + 1 := ⟨f - 1, by omega⟩
    unfold Nat.toDigits
    simp only [Nat.toDigitsCore]
    by_cases h0 : n / 10 = 0
    · simp [h0]
    · simp only [h0, if_false]
      have hlt : n / 10 < n := by omega
      rw [toDigitsCore_acc k, toDigitsCore_acc n, ih (n / 10) hlt k (by omega),
        ih (n / 10) hlt n hlt]

theorem toDigits_step (n : Nat) :
    Nat.toDigits 10 n =
      if n / 10 = 0 then [Nat.digitChar (n % 10)]
      else Nat.toDigits 10 (n / 10) ++ [Nat.digitChar (n % 10)] := by
  conv_lhs => unfold Nat.toDigits
  simp only [Nat.toDigitsCore]
  by_cases h0 : n / 10 = 0
  · simp [h0]
  · simp only [h0, if_false]
    rw [toDigitsCore_acc, toDigitsCore_fuel (n / 10) n (by omega)]

theorem digitChar_toNat (k : Nat) (hk : k < 10) : (Nat.digitChar k).toNat = 48 + k := by
  interval_cases k <;> rfl

theorem digitChar_isDigit (k : Nat) (hk : k < 10) :
    (decide ('0' ≤ Nat.digitChar k) && decide (Nat.digitChar k ≤ '9')) = true := by
  interval_cases k <;> decide

theorem decimalValue_append_singleton (xs : List Char) (c : Char) :
    decimalValue (xs ++ [c]) = 10 * decimalValue xs + (c.toNat - 48) := by
  simp [decimalValue, List.foldl_append]

theorem decimalValue_toDigits (n : Nat) : decimalValue (Nat.toDigits 10 n) = n := by
  induction n using Nat.strong_induction_on with
  | _ n ih =>
    rw [toDigits_step]
    by_cases h0 : n / 10 = 0
    · simp only [h0, if_true]
      have : decimalValue [Nat.digitChar (n % 10)] = (Nat.digitChar (n % 10)).toNat - 48 := by
        simp [decimalValue]
      rw [this, digitChar_toNat _ (Nat.mod_lt _ (by decide))]
      omega
    · simp only [h0, if_false]
      rw [decimalValue_append_singleton, ih (n / 10) (by omega),
        digitChar_toNat _ (Nat.mod_lt _ (by decide))]
      omega

theorem toDigits_all_digit (n : Nat) :
    (Nat.toDigits 10 n).all (fun c => decide ('0' ≤ c) && decide (c ≤ '9')) = true := by
  induction n using Nat.strong_induction_on with
  | _ n ih =>
    rw [toDigits_step]
    by_cases h0 : n / 10 = 0
    · simp only [h0, if_true, List.all_cons, List.all_nil, Bool.and_true]
      exact digitChar_isDigit _ (Nat.mod_lt _ (by decide))
    · simp only [h0, if_false, List.all_append, List.all_cons, List.all_nil, Bool.and_true,
        Bool.and_eq_true]
      exact ⟨ih (n / 10) (by omega),
        Bool.and_eq_true_iff.mp (digitChar_isDigit _ (Nat.mod_lt _ (by decide)))⟩

theorem toString_nat_data (n : Nat) : (toString n).data = Nat.toDigits 10 n := rfl

theorem decimalValue_replicate_zero (k : Nat) (l : List Char) :
    decimalValue (List.replicate k '0' ++ l) = decimalValue l := by
  induction k with
  | zero => simp
  | succ k ih =>
    have h : decimalValue (List.replicate (k + 1) '0' ++ l) =
        List.foldl (fun a c => 10 * a + (c.toNat - 48)) (10 * 0 + ('0'.toNat - 48))
          (List.replicate k '0' ++ l) := by
      simp [decimalValue, List.replicate_succ]
    rw [h]
    exact ih

theorem leftpad_eq (w : Nat) (l : List Char) :
    List.leftpad w '0' l = List.replicate (w - l.length) '0' ++ l := rfl

theorem decimalValue_leftpad (w n : Nat) :
    decimalValue (List.leftpad w '0' (toString n).data) = n := by
  rw [leftpad_eq, decimalValue_replicate_zero, toString_nat_data, decimalValue_toDigits]

theorem leftpad_all_digit (w n : Nat) :
    (List.leftpad w '0' (toString n).data).all
      (fun c => decide ('0' ≤ c) && decide (c ≤ '9')) = true := by
  rw [leftpad_eq, List.all_append, toString_nat_data, toDigits_all_digit, Bool.and_true]
  simp only [List.all_eq_true, List.mem_replicate, and_imp]
  intro c _ hc
  subst hc
  decide

theorem isNumericText_leftpad (w n : Nat) :
    isNumericText (String.mk (List.leftpad w '0' (toString n).data)) = true := by
  unfold isNumericText
  simp only [Bool.and_eq_true, Bool.not_eq_true', leftpad_all_digit, and_true]
  rw [leftpad_eq]
  have hne : (toString n).data ≠ [] := fun h => toString_nat_ne_empty n (by
    rcases hs : toString n with ⟨l⟩
    rw [hs] at h
    simp only at h
    rw [h])
  cases hd : (toString n).data with
  | nil => exact absurd hd hne
  | cons c cs => simp

theorem decimalValue_lt_pow (l : List Char)
    (h : l.all (fun c => decide ('0' ≤ c) && decide (c ≤ '9')) = true) :
    decimalValue l < 10 ^ l.length := by
  induction l using List.reverseRecOn with
  | nil => simp [decimalValue]
  | append_singleton xs c ih =>
    simp only [List.all_append, List.all_cons, List.all_nil, Bool.and_true,
      Bool.and_eq_true, decide_eq_true_eq] at h
    obtain ⟨hxs, h0, h9⟩ := h
    have ih := ih hxs
    rw [decimalValue_append_singleton, List.length_append, List.length_singleton, pow_succ]
    have hc : c.toNat - 48 ≤ 9 := by
      have : c.toNat ≤ '9'.toNat := h9
      have h57 : '9'.toNat = 57 := rfl
      omega
    omega

/-! ## Format and freshness of allocated numbers -/

theorem getNextCertificateNumber_cases {flt : Option String} {db : DB} {s : String}
    (h : getNextCertificateNumber flt db = .ok s) :
    (numericCertificates db.documents = [] ∧ s = "0001") ∨
      ∃ m : Nat,
        (∃ c ∈ numericCertificates db.documents, decimalValue c.data = m) ∧
        (∀ c ∈ numericCertificates db.documents, decimalValue c.data ≤ m) ∧
        s = String.mk (List.leftpad 4 '0' (toString (m + 1)).data) := by
  unfold getNextCertificateNumber at h
  cases hsel : selectMaxCertificate flt db with
  | error e => simp [hsel] at h
  | ok r =>
    obtain ⟨_, hr, hbound⟩ := selectMaxCertificate_ok hsel
    cases hr2 : r with
    | none =>
      left
      rw [hr2] at hr
      have hnil := sqlMax_eq_none.mp hr.symm
      simp only [List.map_eq_nil_iff] at hnil
      simp only [hsel, hr2, Except.ok.injEq] at h
      exact ⟨hnil, h.symm⟩
    | some M =>
      right
      rw [hr2] at hr
      obtain ⟨hM, hle⟩ := sqlMax_eq_some hr.symm
      obtain ⟨c1, hc1, hM1⟩ := List.mem_map.mp hM
      simp only [hsel, hr2, Except.ok.injEq] at h
      refine ⟨decimalValue c1.data, ⟨c1, hc1, rfl⟩, ?_, ?_⟩
      · intro c2 hc2
        have := hle _ (List.mem_map.mpr ⟨c2, hc2, rfl⟩)
        rw [← hM1] at this
        exact_mod_cast this
      · rw [← h, ← hM1]
        have hb := hbound c1 hc1
        rw [wrapInt64_of_range (by omega) (by omega)]
        have : ((decimalValue c1.data : Int) + 1) = ((decimalValue c1.data + 1 : Nat) : Int) := by
          push_cast; rfl
        rw [this, sprintfZeroPad_natCast]

/-- C12, the code at the failing input: the two dates come from two readings
of the clock.  When the first reading falls on day 19800 (2024-03-18) and the
second on the next day, the stored issue date is 2024-03-18 and the stored
due date is 2024-04-18, while the date 30 days after the issue date is
2024-04-17; with both readings on the same day the stored due date is that
date. -/
theorem invoiceCreate_due_date_divergence :
    (invoiceCreate noFault 19800 19801 "2024-03-18T23:59:59Z" sampleDB
        (.ok sampleInvoiceInput)).2.invoices.map (fun i => (i.Status, i.IssueDate, i.DueDate))
      = [(statusPending, some "2024-03-18", some "2024-04-18")] ∧
    formatDate (19800 + 30) = "2024-04-17" ∧
    (invoiceCreate noFault 19800 19800 "2024-03-18T08:00:00Z" sampleDB
        (.ok sampleInvoiceInput)).2.invoices.map (fun i => (i.Status, i.IssueDate, i.DueDate))
      = [(statusPending, some "2024-03-18", some "2024-04-17")] := by
  refine ⟨by decide, by decide, by decide⟩

/-- C13 as stated fails from 9999 on: with the certificate number "9999" in
the store the allocator returns "10000", which has five characters. -/
theorem getNextCertificateNumber_width_counterexample :
    getNextCertificateNumber none
        { sampleDB with documents := [sampleDocument 1 "12345678901234" "9999"] } = .ok "10000" ∧
      ("10000" : String).length = 5 :=
  ⟨rfl, by decide⟩

/-- C13, amended: whenever the maximum scan succeeds, the string that
`getNextCertificateNumber` returns consists of decimal digits only and has at
least four characters; it has exactly four when every purely numeric stored
certificate number has a value below 9999, and more than four when one of
them has a value of 9999 or more. -/
theorem getNextCertificateNumber_format (flt : Option String) (db : DB) (s : String)
    (h : getNextCertificateNumber flt db = .ok s) :
    (∀ c ∈ s.data, '0' ≤ c ∧ c ≤ '9') ∧ 4 ≤ s.length ∧
      ((∀ d ∈ db.documents, ∀ c, d.CertificateNo = some c → isNumericText c = true →
          decimalValue c.data < 9999) → s.length = 4) ∧
      ((∃ d ∈ db.documents, ∃ c, d.CertificateNo = some c ∧ isNumericText c = true ∧
          9999 ≤ decimalValue c.data) → 4 < s.length) := by
  rcases getNextCertificateNumber_cases h with ⟨hnil, hs⟩ | ⟨m, ⟨c1, hc1, hv1⟩, hmax, hs⟩
  · subst hs
    refine ⟨by decide, by decide, fun _ => by decide, ?_⟩
    rintro ⟨d, hd, c, hc, hn, _⟩
    have : c ∈ numericCertificates db.documents := mem_numericCertificates.mpr ⟨d, hd, hc, hn⟩
    rw [hnil] at this
    exact absurd this (List.not_mem_nil c)
  · subst hs
    have hlen : (String.mk (List.leftpad 4 '0' (toString (m + 1)).data)).length =
        max 4 (toString (m + 1)).data.length := by
      show (List.leftpad 4 '0' (toString (m + 1)).data).length = _
      exact List.leftpad_length 4 '0' _
    refine ⟨?_, ?_, ?_, ?_⟩
    · intro c hc
      have hall := leftpad_all_digit 4 (m + 1)
      rw [List.all_eq_true] at hall
      have := hall c hc
      simpa using this
    · rw [hlen]; exact le_max_left _ _
    · intro hsmall
      obtain ⟨d1, hd1, hcert1, hn1⟩ := mem_numericCertificates.mp hc1
      have hm : m < 9999 := by
        rw [← hv1]; exact hsmall d1 hd1 c1 hcert1 hn1
      have hrepr : (Nat.repr (m + 1)).length ≤ 4 :=
        Nat.repr_length (m + 1) 4 (by decide) (by omega)
      rw [hlen]
      exact max_eq_left hrepr
    · rintro ⟨d, hd, c, hc, hn, hbig⟩
      have hmem : c ∈ numericCertificates db.documents :=
        mem_numericCertificates.mpr ⟨d, hd, hc, hn⟩
      have hm : 9999 ≤ m := le_trans hbig (hmax c hmem)
      rw [hlen]
      by_contra hle
      have hshort : (toString (m + 1)).data.length ≤ 4 := by
        have := le_max_right 4 (toString (m + 1)).data.length
        omega
      have hval := decimalValue_toDigits (m + 1)
      have hlt := decimalValue_lt_pow (Nat.toDigits 10 (m + 1)) (toDigits_all_digit (m + 1))
      rw [hval] at hlt
      rw [toString_nat_data] at hshort
      have : 10 ^ (Nat.toDigits 10 (m + 1)).length ≤ 10 ^ 4 :=
        Nat.pow_le_pow_right (by decide) hshort
      omega

/-- Witness of C13: the sample store holds the numeric certificate number
"0007" and the next number "0008" has four digits. -/
theorem getNextCertificateNumber_format_witness :
    getNextCertificateNumber none sampleDB = .ok "0008" ∧ ("0008" : String).length = 4 :=
  ⟨rfl,
   (getNextCertificateNumber_format none sampleDB "0008" rfl).2.2.1 (by decide)⟩

/-! ## Commission number -/

theorem dropWhile_all_eq_nil {α : Type} (p : α → Bool) (l : List α)
    (h : ∀ x ∈ l.dropWhile p, p x = true) : l.dropWhile p = [] := by
  cases hd : l.dropWhile p with
  | nil => rfl
  | cons a t =>
    have hne : l.dropWhile p ≠ [] := by rw [hd]; exact List.cons_ne_nil _ _
    have hhead := List.head_dropWhile_not p l hne
    have ha : (l.dropWhile p).head hne = a := by simp [hd]
    rw [ha] at hhead
    have := h a (by rw [hd]; exact List.mem_cons_self _ _)
    rw [this] at hhead
    exact absurd hhead (by decide)

theorem trimSpace_eq_empty_iff (s : String) :
    TrimSpace s = "" ↔ ∀ ch ∈ s.data, isSpace ch = true := by
  unfold TrimSpace
  constructor
  · intro h
    have h1 : ((s.data.dropWhile isSpace).reverse.dropWhile isSpace).reverse = [] := by
      have := congrArg String.data h
      simpa using this
    rw [List.reverse_eq_nil_iff, List.dropWhile_eq_nil_iff] at h1
    have h2 : s.data.dropWhile isSpace = [] :=
      dropWhile_all_eq_nil _ _ (fun x hx => h1 x (List.mem_reverse.mpr hx))
    exact List.dropWhile_eq_nil_iff.mp h2
  · intro h
    have h2 : s.data.dropWhile isSpace = [] := List.dropWhile_eq_nil_iff.mpr h
    rw [h2]
    rfl

/-- C14 as stated fails for a commission number with surrounding white
space: for " 7 " the creation returns and stores " 7 ", not "7". -/
theorem documentCreate_commission_counterexample :
    (documentCreate noFault "2024-04-01T09:00:00Z" sampleDB
        (.ok { sampleInput "" "" with CommissionNo := " 7 " })).1 =
      .ok { status := "success", message := "Guvohnoma muvaffaqiyatli yaratildi",
            certificate_number := "0008", commission_number := " 7 " } ∧
    TrimSpace " 7 " = "7" ∧ (" 7 " : String) ≠ "7" := by
  refine ⟨by decide, by decide, by decide⟩

/-- C14, amended: the commission number that a successful `documentCreate`
returns and stores on the new row is "15" when the commission number of the
request is empty or consists of white space only, and otherwise the
commission number of the request, unchanged. -/
theorem documentCreate_commission_number (flts : Nat → Option String) (now : String)
    (db db1 : DB) (input : DocumentInput) (resp : DocumentCreateResponse)
    (h : documentCreate flts now db (.ok input) = (.ok resp, db1)) :
    ((∀ ch ∈ input.CommissionNo.data, isSpace ch = true) → resp.commission_number = "15") ∧
      ((¬ ∀ ch ∈ input.CommissionNo.data, isSpace ch = true) →
        resp.commission_number = input.CommissionNo) ∧
      ∃ row : Document, db1.documents = db.documents ++ [row] ∧
        row.CommissionNo = some resp.commission_number := by
  obtain ⟨_, hcomm, row, hrow, _, hrc⟩ := documentCreate_ok h
  refine ⟨?_, ?_, row, hrow, hrc⟩
  · intro hblank
    rw [hcomm]
    unfold defaultCommissionNo
    rw [if_pos (Or.inr ((trimSpace_eq_empty_iff _).mpr hblank))]
  · intro hnot
    rw [hcomm]
    unfold defaultCommissionNo
    have hne : ¬ (input.CommissionNo = "" ∨ TrimSpace input.CommissionNo = "") := by
      rintro (h0 | h0)
      · apply hnot
        rw [h0]
        intro ch hch
        exact absurd hch (List.not_mem_nil ch)
      · exact hnot ((trimSpace_eq_empty_iff _).mp h0)
    rw [if_neg hne]

/-- Witness of C14: the sample request has an empty commission number and
the creation returns "15". -/
theorem documentCreate_commission_number_witness :
    (documentCreate noFault "2024-04-01T09:00:00Z" sampleDB (.ok (sampleInput "" ""))).1 =
        .ok { status := "success", message := "Guvohnoma muvaffaqiyatli yaratildi",
              certificate_number := "0008", commission_number := "15" } ∧
      ("15" : String) = "15" :=
  ⟨by decide,
   (documentCreate_commission_number noFault "2024-04-01T09:00:00Z" sampleDB
      (documentCreate noFault "2024-04-01T09:00:00Z" sampleDB (.ok (sampleInput "" ""))).2
      (sampleInput "" "")
      { status := "success", message := "Guvohnoma muvaffaqiyatli yaratildi",
        certificate_number := "0008", commission_number := "15" }
      (by decide)).1 (by decide)⟩

/-- C18: whenever `getNextCertificateNumber` succeeds, the string it returns
is the certificate number of no document of the store, numeric or not; and a
successful `documentCreate` with a blank certificate number whose allocator
call succeeds on the store it runs on stores, on the new row, a certificate
number that no document of that store has. -/
theorem getNextCertificateNumber_fresh (flt : Option String) (db : DB) (s : String)
    (h : getNextCertificateNumber flt db = .ok s) :
    (∀ d ∈ db.documents, d.CertificateNo ≠ some s) ∧
    (∀ (flts : Nat → Option String) (now : String) (input : DocumentInput)
        (resp : DocumentCreateResponse) (db1 : DB),
        flts 1 = flt →
        (input.CertificateNo = "" ∨ TrimSpace input.CertificateNo = "") →
        documentCreate flts now db (.ok input) = (.ok resp, db1) →
        ∃ row : Document, db1.documents = db.documents ++ [row] ∧
          row.CertificateNo = some s ∧
          ∀ d ∈ db.documents, d.CertificateNo ≠ row.CertificateNo) := by
  have hfresh : ∀ d ∈ db.documents, d.CertificateNo ≠ some s := by
    intro d hd hc
    rcases getNextCertificateNumber_cases h with ⟨hnil, hs⟩ | ⟨m, _, hmax, hs⟩
    · have : s ∈ numericCertificates db.documents :=
        mem_numericCertificates.mpr ⟨d, hd, hc, by rw [hs]; decide⟩
      rw [hnil] at this
      exact absurd this (List.not_mem_nil s)
    · have hnum : isNumericText s = true := by rw [hs]; exact isNumericText_leftpad 4 (m + 1)
      have hmem : s ∈ numericCertificates db.documents :=
        mem_numericCertificates.mpr ⟨d, hd, hc, hnum⟩
      have hle := hmax s hmem
      have hval : decimalValue s.data = m + 1 := by
        rw [hs]; exact decimalValue_leftpad 4 (m + 1)
      omega
  refine ⟨hfresh, ?_⟩
  intro flts now input resp db1 hf hblank hcreate
  obtain ⟨h1, _, row, hrow, hcert, _⟩ := documentCreate_ok hcreate
  have hs : resp.certificate_number = s := by
    rw [h1]
    unfold assignCertificateNo
    rw [if_pos hblank, hf, h]
  rw [hs] at hcert
  exact ⟨row, hrow, hcert, fun d hd => by rw [hcert]; exact hfresh d hd⟩

/-- Witness of C18: "0008" is the certificate number of no document of the
sample store. -/
theorem getNextCertificateNumber_fresh_witness :
    getNextCertificateNumber none sampleDB = .ok "0008" ∧
      (sampleDocument 1 "12345678901234" "0007").CertificateNo ≠ some "0008" :=
  ⟨rfl,
   (getNextCertificateNumber_fresh none sampleDB "0008" rfl).1
     (sampleDocument 1 "12345678901234" "0007") (by decide)⟩

/-! ## Nullable fields at the boundary -/

/-- C16: `convertDocumentToOutput` copies the id and gives, for every
nullable field, its value when it is valid and the empty string or 0 when it
is NULL; a document and the same document with every NULL replaced by the
empty string or 0 have the same output, so two documents that agree after
this replacement do; `documentGet` returns the conversion of the stored row
and `documentsList` the conversions of the stored rows, values of a type
without a NULL. -/
theorem convertDocumentToOutput_spec (doc : Document) :
    ((convertDocumentToOutput doc).ID = doc.ID ∧
      (convertDocumentToOutput doc).Title = doc.Title.getD "" ∧
      (convertDocumentToOutput doc).StudentJSHSHIR = doc.StudentJSHSHIR.getD "" ∧
      (convertDocumentToOutput doc).StudentName = doc.StudentName.getD "" ∧
      (convertDocumentToOutput doc).CourseStart = doc.CourseStart.getD "" ∧
      (convertDocumentToOutput doc).CourseEnd = doc.CourseEnd.getD "" ∧
      (convertDocumentToOutput doc).ExamDate = doc.ExamDate.getD "" ∧
      (convertDocumentToOutput doc).Categories = doc.Categories.getD "" ∧
      (convertDocumentToOutput doc).CourseHours = doc.CourseHours.getD 0 ∧
      (convertDocumentToOutput doc).Grade1 = doc.Grade1.getD 0 ∧
      (convertDocumentToOutput doc).Grade2 = doc.Grade2.getD 0 ∧
      (convertDocumentToOutput doc).CertificateNo = doc.CertificateNo.getD "" ∧
      (convertDocumentToOutput doc).Status = doc.Status.getD "" ∧
      (convertDocumentToOutput doc).CommissionNo = doc.CommissionNo.getD "" ∧
      (convertDocumentToOutput doc).DirectorName = doc.DirectorName.getD "" ∧
      (convertDocumentToOutput doc).CreatedAt = doc.CreatedAt.getD "") ∧
    convertDocumentToOutput (nullToEmpty doc) = convertDocumentToOutput doc ∧
    (∀ other : Document, nullToEmpty other = nullToEmpty doc →
      convertDocumentToOutput other = convertDocumentToOutput doc) ∧
    (∀ (db : DB) (idStr : String) (id : Int), Atoi idStr = some id →
      db.documents.find? (fun d => decide (d.ID = id)) = some doc →
      documentGet none db idStr = .ok (convertDocumentToOutput doc)) ∧
    (∀ (db : DB) (flt : Option String) (out : List DocumentOutput),
      documentsList flt db = .ok out →
      out.Perm (db.documents.map convertDocumentToOutput)) := by
  have hnull : ∀ d : Document,
      convertDocumentToOutput (nullToEmpty d) = convertDocumentToOutput d :=
    fun d => rfl
  refine ⟨?_, hnull doc, ?_, ?_, ?_⟩
  · refine ⟨rfl, ?_, ?_, ?_, ?_, ?_, ?_, ?_, ?_, ?_, ?_, ?_, ?_, ?_, ?_, ?_⟩
    · cases h : doc.Title <;> simp [convertDocumentToOutput, getStringValue, h]
    · cases h : doc.StudentJSHSHIR <;> simp [convertDocumentToOutput, getStringValue, h]
    · cases h : doc.StudentName <;> simp [convertDocumentToOutput, getStringValue, h]
    · cases h : doc.CourseStart <;> simp [convertDocumentToOutput, getStringValue, h]
    · cases h : doc.CourseEnd <;> simp [convertDocumentToOutput, getStringValue, h]
    · cases h : doc.ExamDate <;> simp [convertDocumentToOutput, getStringValue, h]
    · cases h : doc.Categories <;> simp [convertDocumentToOutput, getStringValue, h]
    · cases h : doc.CourseHours <;> simp [convertDocumentToOutput, getIntValue, h]
    · cases h : doc.Grade1 <;> simp [convertDocumentToOutput, getIntValue, h]
    · cases h : doc.Grade2 <;> simp [convertDocumentToOutput, getIntValue, h]
    · cases h : doc.CertificateNo <;> simp [convertDocumentToOutput, getStringValue, h]
    · cases h : doc.Status <;> simp [convertDocumentToOutput, getStringValue, h]
    · cases h : doc.CommissionNo <;> simp [convertDocumentToOutput, getStringValue, h]
    · cases h : doc.DirectorName <;> simp [convertDocumentToOutput, getStringValue, h]
    · cases h : doc.CreatedAt <;> simp [convertDocumentToOutput, getStringValue, h]
  · intro other h
    rw [← hnull other, ← hnull doc, h]
  · intro db idStr id hid hfind
    unfold documentGet selectDocument
    simp only [hid, hfind]
  · intro db flt out h
    unfold documentsList at h
    cases flt with
    | some e => simp at h
    | none =>
      simp only [Response.ok.injEq] at h
      rw [← h]
      exact (List.perm_insertionSort _ _).map _

/-- Witness of C16: document 2 of the sample store and its copy with a NULL
title and NULL course hours replaced by "" and 0. -/
theorem convertDocumentToOutput_spec_witness :
    nullToEmpty { sampleDocument 2 "" "A-1" with Title := none, CourseHours := none } =
        nullToEmpty { sampleDocument 2 "" "A-1" with Title := some "", CourseHours := some 0 } ∧
      convertDocumentToOutput
          { sampleDocument 2 "" "A-1" with Title := none, CourseHours := none } =
        convertDocumentToOutput
          { sampleDocument 2 "" "A-1" with Title := some "", CourseHours := some 0 } :=
  ⟨by decide,
   (convertDocumentToOutput_spec
      { sampleDocument 2 "" "A-1" with Title := some "", CourseHours := some 0 }).2.2.1
     { sampleDocument 2 "" "A-1" with Title := none, CourseHours := none } (by decide)⟩

/-! ## Invoice number on the read paths -/

theorem LPAD_eq_leftpad (n : Nat) (hn : n ≤ 999999) :
    LPAD (toString (n : Int)).data 6 '0' = List.leftpad 6 '0' (toString n).data := by
  rw [toString_natCast]
  have hlen : (toString n).data.length ≤ 6 :=
    Nat.repr_length n 6 (by decide) (by omega)
  unfold LPAD
  by_cases h6 : 6 ≤ (toString n).data.length
  · have heq : (toString n).data.length = 6 := le_antisymm hlen h6
    rw [if_pos h6, leftpad_eq, heq]
    simp [← heq]
  · rw [if_neg h6, leftpad_eq]

theorem selectInvoiceNumber_agrees (i : InvoiceRow) (n : Nat) (hid : i.ID = (n : Int))
    (hnull : i.InvoiceNumber = none) (hn : n ≤ 999999) :
    selectInvoiceNumber i = "INV-" ++ sprintfZeroPad 6 i.ID := by
  unfold selectInvoiceNumber
  rw [hnull, hid, LPAD_eq_leftpad n hn, sprintfZeroPad_natCast]

theorem sprintfZeroPad_injective (w n m : Nat)
    (h : "INV-" ++ sprintfZeroPad w (n : Int) = "INV-" ++ sprintfZeroPad w (m : Int)) :
    n = m := by
  rw [sprintfZeroPad_natCast, sprintfZeroPad_natCast] at h
  have hd := congrArg String.data h
  simp only [String.data_append, List.append_cancel_left_eq] at hd
  have := congrArg decimalValue hd
  rwa [decimalValue_leftpad, decimalValue_leftpad] at this

/-- C19, the code at the failing input: on a store that has given out
999999 invoice ids, `invoiceCreate` with a failing write-back creates the
invoice 1000000 with a NULL invoice number and returns "INV-1000000"; the
read paths then compute "INV-100000" for it, `LPAD` cutting the text of the
id to six characters, which is also the number of the invoice 100000. -/
theorem selectInvoiceNumber_divergence :
    (invoiceCreate writeBackFault 19800 19800 "2024-03-18T08:00:00Z" millionDB
        (.ok sampleInvoiceInput)).1 =
      .ok { success := true, id := 1000000, invoice_number := "INV-1000000",
            student_name := "Ali Valiyev", message := "Invoyis muvaffaqiyatli yaratildi" } ∧
    (∃ detail : InvoiceDetail,
      invoiceGetDetails none
          (invoiceCreate writeBackFault 19800 19800 "2024-03-18T08:00:00Z" millionDB
            (.ok sampleInvoiceInput)).2 "1000000" = .ok detail ∧
        detail.ID = 1000000 ∧ detail.InvoiceNumber = "INV-100000") ∧
    (∃ list : List Invoice,
      invoicesList none
          (invoiceCreate writeBackFault 19800 19800 "2024-03-18T08:00:00Z" millionDB
            (.ok sampleInvoiceInput)).2 = .ok list ∧
        list.map (fun i => (i.ID, i.InvoiceNumber)) = [(1000000, "INV-100000")]) ∧
    "INV-" ++ sprintfZeroPad 6 100000 = "INV-100000" := by
  refine ⟨by decide, ⟨_, rfl, by decide, by decide⟩, ⟨_, rfl, by decide⟩, by decide⟩

/-! ## Invoice search -/

theorem ilikeMatch_cons (fold : Char → Char) (c : Char) (p t : List Char) :
    ilikeMatch fold (c :: p) t =
      if c = '%' then t.tails.any (fun s => ilikeMatch fold p s)
      else if c = '_' then
        match t with
        | [] => false
        | _ :: t1 => ilikeMatch fold p t1
      else if c = '\\' then
        match p, t with
        | c2 :: p2, c1 :: t1 => fold c2 == fold c1 && ilikeMatch fold p2 t1
        | _, _ => false
      else
        match t with
        | [] => false
        | c1 :: t1 => fold c == fold c1 && ilikeMatch fold p t1 := by
  cases p <;> cases t <;> rfl

theorem ilikeMatch_percent (fold : Char → Char) (p t : List Char) :
    ilikeMatch fold ('%' :: p) t = true ↔ ∃ s, s <:+ t ∧ ilikeMatch fold p s = true := by
  rw [ilikeMatch_cons, if_pos rfl, List.any_eq_true]
  simp only [List.mem_tails]

theorem ilikeMatch_percent_nil (fold : Char → Char) (t : List Char) :
    ilikeMatch fold ['%'] t = true :=
  (ilikeMatch_percent fold [] t).mpr ⟨[], List.nil_suffix, rfl⟩

theorem ilikeMatch_literal (fold : Char → Char) (q rest : List Char)
    (hq : ∀ c ∈ q, c ≠ '%' ∧ c ≠ '_' ∧ c ≠ '\\') (t : List Char) :
    ilikeMatch fold (q ++ rest) t = true ↔
      ∃ t1 t2, t = t1 ++ t2 ∧ t1.map fold = q.map fold ∧ ilikeMatch fold rest t2 = true := by
  induction q generalizing t with
  | nil =>
    constructor
    · intro h
      exact ⟨[], t, rfl, rfl, h⟩
    · rintro ⟨t1, t2, ht, hmap, h⟩
      have : t1 = [] := by simpa using hmap
      subst this
      simpa [ht] using h
  | cons c q ih =>
    obtain ⟨h1, h2, h3⟩ := hq c (List.mem_cons_self _ _)
    have hq' : ∀ c ∈ q, c ≠ '%' ∧ c ≠ '_' ∧ c ≠ '\\' :=
      fun x hx => hq x (List.mem_cons_of_mem _ hx)
    rw [List.cons_append, ilikeMatch_cons, if_neg h1, if_neg h2, if_neg h3]
    cases t with
    | nil =>
      simp only
      constructor
      · intro h; exact absurd h (by decide)
      · rintro ⟨t1, t2, ht, hmap, _⟩
        have hnil : t1 = [] := (List.append_eq_nil.mp ht.symm).1
        subst hnil
        simp at hmap
    | cons c1 t1 =>
      simp only [Bool.and_eq_true, beq_iff_eq]
      rw [ih hq' t1]
      constructor
      · rintro ⟨hc, s1, s2, hs, hmap, hrest⟩
        exact ⟨c1 :: s1, s2, by rw [hs]; rfl, by simp [hmap, hc], hrest⟩
      · rintro ⟨s1, s2, hs, hmap, hrest⟩
        cases s1 with
        | nil => simp at hmap
        | cons a s1 =>
          simp only [List.cons_append, List.cons.injEq] at hs
          simp only [List.map_cons, List.cons.injEq] at hmap
          obtain ⟨ha, hs⟩ := hs
          subst ha
          exact ⟨hmap.1.symm, s1, s2, hs, hmap.2, hrest⟩

theorem ilikeMatch_substring (fold : Char → Char) (q t : List Char)
    (hq : ∀ c ∈ q, c ≠ '%' ∧ c ≠ '_' ∧ c ≠ '\\') :
    ilikeMatch fold ('%' :: (q ++ ['%'])) t = true ↔ (q.map fold) <:+: (t.map fold) := by
  rw [ilikeMatch_percent]
  constructor
  · rintro ⟨s, ⟨pre, hpre⟩, hs⟩
    obtain ⟨t1, t2, hst, hmap, _⟩ := (ilikeMatch_literal fold q ['%'] hq s).mp hs
    refine ⟨pre.map fold, t2.map fold, ?_⟩
    rw [← hpre, hst, ← hmap]
    simp
  · rintro ⟨a, b, hab⟩
    have hab' : t.map fold = a ++ (q.map fold ++ b) := by rw [← hab]; simp
    obtain ⟨l1, l2, hl, _, hl2⟩ := List.map_eq_append_iff.mp hab'
    obtain ⟨m1, m2, hm, hm1, _⟩ := List.map_eq_append_iff.mp hl2
    refine ⟨l2, ⟨l1, hl.symm⟩, ?_⟩
    exact (ilikeMatch_literal fold q ['%'] hq l2).mpr
      ⟨m1, m2, hm, hm1, ilikeMatch_percent_nil fold m2⟩

theorem ILIKE_substring (fold : Char → Char) (query : String) (text : Option String)
    (hq : ∀ c ∈ query.data, c ≠ '%' ∧ c ≠ '_' ∧ c ≠ '\\') :
    ILIKE fold text ("%" ++ query ++ "%") = containsFold fold query text := by
  cases text with
  | none => rfl
  | some t =>
    have hdata : ("%" ++ query ++ "%").data = '%' :: (query.data ++ ['%']) := by
      simp [String.data_append]
    simp only [ILIKE, containsFold, hdata]
    rw [Bool.eq_iff_iff, decide_eq_true_iff]
    exact ilikeMatch_substring fold query.data t.data hq

theorem ILIKE_percent (fold : Char → Char) (text : Option String) :
    ILIKE fold text "%" = containsFold fold "" text := by
  cases text with
  | none => rfl
  | some t =>
    simp only [ILIKE, containsFold]
    rw [Bool.eq_iff_iff, decide_eq_true_iff]
    exact ⟨fun _ => ⟨[], t.data.map fold, by simp⟩, fun _ => ilikeMatch_percent_nil fold t.data⟩

theorem searchPattern_ne (query : String) (h : query ≠ "") : "%" ++ query ++ "%" ≠ "%%" := by
  intro heq
  have hlen := congrArg String.length heq
  have hpos := length_pos_of_ne_empty h
  simp only [String.length_append] at hlen
  have h1 : ("%" : String).length = 1 := rfl
  have h2 : ("%%" : String).length = 2 := rfl
  omega

theorem searchMatches_eq (fold : Char → Char) (db : DB) (query : String)
    (hq : ∀ c ∈ query.data, c ≠ '%' ∧ c ≠ '_' ∧ c ≠ '\\') :
    searchMatches fold db (if "%" ++ query ++ "%" = "%%" then "%" else "%" ++ query ++ "%") =
      substringMatches fold db query := by
  funext i
  by_cases h : query = ""
  · subst h
    have hp : ("%" ++ "" ++ "%" : String) = "%%" := by decide
    simp only [hp, if_true, searchMatches, substringMatches, ILIKE_percent]
  · rw [if_neg (searchPattern_ne query h)]
    simp only [searchMatches, substringMatches, ILIKE_substring fold query _ hq]

/-- C15 as stated fails on two counts.  In `paidDB` no column of the sample
invoice contains the character "_", yet the search for "_" returns the
invoice, the character standing for any one character of the pattern.  In
`renamedDB` the name stored on the invoice contains "Ali", yet the search for
"Ali" returns nothing, the name compared being the one of the registry. -/
theorem invoicesSearch_counterexample :
    (containsFold Char.toLower "_" (some (sampleInvoice statusPaid (some "2024-03-19")).StudentJSHSHIR)
        = false ∧
      containsFold Char.toLower "_" (some (sampleInvoice statusPaid (some "2024-03-19")).StudentName)
        = false ∧
      containsFold Char.toLower "_" (some (sampleInvoice statusPaid (some "2024-03-19")).Description)
        = false ∧
      containsFold Char.toLower "_" (sampleInvoice statusPaid (some "2024-03-19")).InvoiceNumber
        = false ∧
      invoicesSearch Char.toLower none paidDB "_" =
        .ok [scanInvoice paidDB (sampleInvoice statusPaid (some "2024-03-19"))]) ∧
    (renamedDB.invoices = [sampleInvoice statusPaid (some "2024-03-19")] ∧
      containsFold Char.toLower "Ali" (some (sampleInvoice statusPaid (some "2024-03-19")).StudentName)
        = true ∧
      invoicesSearch Char.toLower none renamedDB "Ali" = .ok []) := by
  refine ⟨⟨by decide, by decide, by decide, by decide, by decide⟩, rfl, by decide, by decide⟩

/-- C15, amended: for every query string without the characters "%", "_"
and backslash, `invoicesSearch` returns exactly the stored invoices for which
the query is a case-insensitive substring of the student reference, of the
full name that the registry holds for that reference, of the description or
of the stored, non-NULL invoice number; for the empty query it returns every
stored invoice. -/
theorem invoicesSearch_spec (fold : Char → Char) (db : DB) (query : String)
    (hq : ∀ c ∈ query.data, c ≠ '%' ∧ c ≠ '_' ∧ c ≠ '\\') :
    (∃ out : List Invoice, invoicesSearch fold none db query = .ok out ∧
        out.Perm ((db.invoices.filter (substringMatches fold db query)).map (scanInvoice db))) ∧
    (query = "" → ∃ out : List Invoice, invoicesSearch fold none db query = .ok out ∧
        out.Perm (db.invoices.map (scanInvoice db))) := by
  have hperm : ∀ rows : List InvoiceRow, (orderInvoices rows).Perm rows :=
    fun rows => List.perm_insertionSort _ rows
  have hres : invoicesSearch fold none db query =
      .ok ((orderInvoices (db.invoices.filter (substringMatches fold db query))).map
        (scanInvoice db)) := by
    unfold invoicesSearch
    simp only [searchMatches_eq fold db query hq]
  refine ⟨⟨_, hres, (hperm _).map _⟩, ?_⟩
  intro hempty
  refine ⟨_, hres, ?_⟩
  have hall : db.invoices.filter (substringMatches fold db query) = db.invoices := by
    apply List.filter_eq_self.mpr
    intro i _
    subst hempty
    have : containsFold fold "" (some i.StudentJSHSHIR) = true := by
      simp only [containsFold, decide_eq_true_eq]
      exact ⟨[], i.StudentJSHSHIR.data.map fold, by simp⟩
    simp [substringMatches, this]
  rw [hall]
  exact (hperm _).map _

/-- Witness of C15: the search for "kurs" on `paidDB` returns the sample
invoice, whose description is "Kurs". -/
theorem invoicesSearch_spec_witness :
    substringMatches Char.toLower paidDB "kurs" (sampleInvoice statusPaid (some "2024-03-19"))
        = true ∧
      ∃ out : List Invoice, invoicesSearch Char.toLower none paidDB "kurs" = .ok out ∧
        out.Perm ((paidDB.invoices.filter (substringMatches Char.toLower paidDB "kurs")).map
          (scanInvoice paidDB)) :=
  ⟨by decide, (invoicesSearch_spec Char.toLower paidDB "kurs" (by decide)).1⟩

/-! ## Interleaved and serial creations -/

theorem createStep_twice (flt : Nat → Option String) (now : String) (db : DB)
    (input : DocumentInput) :
    createStep flt now (createStep flt now db (.start input)).2
        (createStep flt now db (.start input)).1 =
      (.done (documentCreate flt now db (.ok input)).1,
        (documentCreate flt now db (.ok input)).2) := by
  unfold documentCreate
  simp only [createStep]
  cases hc : checkStudent (flt 0) db input.StudentJSHSHIR with
  | some p => simp [createStep]
  | none =>
    simp only [createStep]
    cases hi : insertDocument (flt 3) now db
        { input with
          CommissionNo := defaultCommissionNo input.CommissionNo
          CertificateNo := assignCertificateNo flt db input.CertificateNo } with
    | error e => simp
    | ok db1 => simp

theorem get?_append_length (pre : List CreateProc) (x : CreateProc) (l : List CreateProc) :
    (pre ++ x :: l).get? pre.length = some x := by
  induction pre with
  | nil => rfl
  | cons a pre ih => simpa using ih

theorem set_append_length (pre : List CreateProc) (x y : CreateProc) (l : List CreateProc) :
    (pre ++ x :: l).set pre.length y = pre ++ y :: l := by
  induction pre with
  | nil => rfl
  | cons a pre ih => simp

theorem runSchedule_serial (flt : Nat → Option String) (now : String)
    (inputs : List DocumentInput) (pre : List CreateProc) (db : DB) :
    runSchedule flt now (serialSchedule pre.length inputs.length)
        (pre ++ inputs.map CreateProc.start, db) =
      (pre ++ (createAll flt now db inputs).1.map CreateProc.done,
        (createAll flt now db inputs).2) := by
  induction inputs generalizing pre db with
  | nil => simp [serialSchedule, runSchedule, createAll]
  | cons input rest ih =>
    simp only [List.length_cons, serialSchedule, List.map_cons, runSchedule,
      get?_append_length, set_append_length, createStep_twice]
    have h := ih (pre ++ [CreateProc.done (documentCreate flt now db (.ok input)).1])
      (documentCreate flt now db (.ok input)).2
    simp only [List.length_append, List.length_singleton, List.append_assoc,
      List.singleton_append] at h
    rw [h]
    simp [createAll]

theorem castAll_of_bound (l : List String)
    (h : ∀ s ∈ l, decimalValue s.data ≤ 2147483647) :
    castAll l = .ok (l.map (fun s => (decimalValue s.data : Int))) := by
  induction l with
  | nil => rfl
  | cons s ss ih =>
    have hs := h s (List.mem_cons_self _ _)
    have hss := ih (fun t ht => h t (List.mem_cons_of_mem _ ht))
    simp only [castAll, castInteger, if_pos hs, hss, List.map_cons]

theorem certificateText_value (n : Nat) : decimalValue (certificateText n).data = n :=
  decimalValue_leftpad 4 n

theorem certificateText_numeric (n : Nat) : isNumericText (certificateText n) = true :=
  isNumericText_leftpad 4 n

theorem numericCertificates_of_map (docs : List Document) (k : Nat)
    (h : docs.map (fun d => d.CertificateNo) =
      (List.range k).map (fun j => some (certificateText (j + 1)))) :
    numericCertificates docs = (List.range k).map (fun j => certificateText (j + 1)) := by
  have hfm : numericCertificates docs =
      (docs.map (fun d => d.CertificateNo)).filterMap (fun o =>
        match o with
        | some c => if isNumericText c then some c else none
        | none => none) := by
    unfold numericCertificates
    rw [List.filterMap_map]
    rfl
  rw [hfm, h, List.filterMap_map]
  have : ((fun o : Option String =>
        match o with
        | some c => if isNumericText c then some c else none
        | none => none) ∘ fun j => some (certificateText (j + 1))) =
      fun j => some (certificateText (j + 1)) := by
    funext j
    simp [certificateText_numeric]
  rw [this]
  exact congrFun (List.filterMap_eq_map (fun j => certificateText (j + 1))) (List.range k)

theorem getNextCertificateNumber_of_map (db : DB) (k : Nat) (hk : k ≤ 2147483646)
    (h : db.documents.map (fun d => d.CertificateNo) =
      (List.range k).map (fun j => some (certificateText (j + 1)))) :
    getNextCertificateNumber none db = .ok (certificateText (k + 1)) := by
  have hnum := numericCertificates_of_map db.documents k h
  have hbound : ∀ s ∈ numericCertificates db.documents, decimalValue s.data ≤ 2147483647 := by
    intro s hs
    rw [hnum] at hs
    obtain ⟨j, hj, rfl⟩ := List.mem_map.mp hs
    rw [certificateText_value]
    have := List.mem_range.mp hj
    omega
  have hvals : (numericCertificates db.documents).map (fun s => (decimalValue s.data : Int)) =
      (List.range k).map (fun j => ((j + 1 : Nat) : Int)) := by
    rw [hnum, List.map_map]
    apply List.map_congr_left
    intro j _
    simp [certificateText_value]
  unfold getNextCertificateNumber selectMaxCertificate
  simp only [castAll_of_bound _ hbound, hvals]
  cases hmax : sqlMax ((List.range k).map (fun j => ((j + 1 : Nat) : Int))) with
  | none =>
    have hnil := sqlMax_eq_none.mp hmax
    have hk0 : k = 0 := by
      simpa using hnil
    subst hk0
    rfl
  | some M =>
    obtain ⟨hM, hle⟩ := sqlMax_eq_some hmax
    obtain ⟨j, hj, hjM⟩ := List.mem_map.mp hM
    have hjk := List.mem_range.mp hj
    have hkM : ((k : Nat) : Int) ≤ M := by
      have hmem : (((k - 1) + 1 : Nat) : Int) ∈
          (List.range k).map (fun j => ((j + 1 : Nat) : Int)) :=
        List.mem_map.mpr ⟨k - 1, List.mem_range.mpr (by omega), rfl⟩
      have := hle _ hmem
      have hk1 : (k - 1) + 1 = k := by omega
      rw [hk1] at this
      exact this
    have hMk : M = (k : Int) := by
      rw [← hjM] at hkM ⊢
      have : j + 1 ≤ k := hjk
      omega
    subst hMk
    simp only
    rw [wrapInt64_of_range (by omega) (by omega)]
    have : ((k : Int) + 1) = ((k + 1 : Nat) : Int) := by push_cast; rfl
    rw [this, sprintfZeroPad_natCast]
    rfl

theorem checkStudent_none_of (db : DB) (ref : String)
    (h : TrimSpace ref = "" ∨ ∃ s ∈ db.students, s.JSHSHIR = TrimSpace ref) :
    checkStudent none db ref = none := by
  by_cases ht : TrimSpace ref = ""
  · unfold checkStudent
    have : ¬ (ref ≠ "" ∧ (TrimSpace ref).length > 0) := by
      rintro ⟨_, hlen⟩
      rw [ht] at hlen
      exact absurd hlen (by decide)
    rw [if_neg this]
  · rcases h with h | h
    · exact absurd h ht
    · rw [checkStudent_of_ref db ref ht, if_pos ((studentExists_iff db _).mpr h)]

theorem documentCreate_of_map (flt : Nat → Option String) (now : String) (db : DB) (k : Nat)
    (input : DocumentInput) (h0 : flt 0 = none) (h1 : flt 1 = none) (h3 : flt 3 = none)
    (hk : k ≤ 2147483646)
    (hP : db.documents.map (fun d => d.CertificateNo) =
      (List.range k).map (fun j => some (certificateText (j + 1))))
    (hblank : input.CertificateNo = "" ∨ TrimSpace input.CertificateNo = "")
    (hstud : TrimSpace input.StudentJSHSHIR = "" ∨
      ∃ s ∈ db.students, s.JSHSHIR = TrimSpace input.StudentJSHSHIR) :
    responseCertificateNo (documentCreate flt now db (.ok input)).1 =
        some (certificateText (k + 1)) ∧
      (documentCreate flt now db (.ok input)).2.students = db.students ∧
      (documentCreate flt now db (.ok input)).2.documents.map (fun d => d.CertificateNo) =
        (List.range (k + 1)).map (fun j => some (certificateText (j + 1))) := by
  unfold documentCreate
  simp only [h0, checkStudent_none_of db _ hstud, assignCertificateNo, if_pos hblank, h1,
    getNextCertificateNumber_of_map db k hk hP, insertDocument, h3]
  simp only [responseCertificateNo, List.map_append, List.map_cons, List.map_nil, hP,
    List.range_succ, insertedDocument, and_self]

theorem createAll_numbers (flt : Nat → Option String) (now : String)
    (h0 : flt 0 = none) (h1 : flt 1 = none) (h3 : flt 3 = none)
    (inputs : List DocumentInput) (db : DB) (k : Nat)
    (hk : k + inputs.length ≤ 2147483647)
    (hP : db.documents.map (fun d => d.CertificateNo) =
      (List.range k).map (fun j => some (certificateText (j + 1))))
    (hblank : ∀ i ∈ inputs, i.CertificateNo = "" ∨ TrimSpace i.CertificateNo = "")
    (hstud : ∀ i ∈ inputs, TrimSpace i.StudentJSHSHIR = "" ∨
      ∃ s ∈ db.students, s.JSHSHIR = TrimSpace i.StudentJSHSHIR) :
    (createAll flt now db inputs).1.map responseCertificateNo =
        (List.range inputs.length).map (fun j => some (certificateText (k + j + 1))) ∧
      (createAll flt now db inputs).2.documents.map (fun d => d.CertificateNo) =
        (List.range (k + inputs.length)).map (fun j => some (certificateText (j + 1))) := by
  induction inputs generalizing db k with
  | nil => exact ⟨rfl, by simpa [createAll] using hP⟩
  | cons input rest ih =>
    simp only [List.length_cons] at hk
    obtain ⟨hr, hs, hd⟩ := documentCreate_of_map flt now db k input h0 h1 h3 (by omega) hP
      (hblank input (List.mem_cons_self _ _)) (hstud input (List.mem_cons_self _ _))
    obtain ⟨ih1, ih2⟩ := ih (documentCreate flt now db (.ok input)).2 (k + 1) (by omega) hd
      (fun i hi => hblank i (List.mem_cons_of_mem _ hi))
      (fun i hi => by rw [hs]; exact hstud i (List.mem_cons_of_mem _ hi))
    constructor
    · simp only [createAll, List.map_cons, List.length_cons, hr, ih1, List.range_succ_eq_map,
        List.map_map]
      simp only [List.cons.injEq, Nat.add_zero, true_and]
      apply List.map_congr_left
      intro j _
      simp only [Function.comp]
      congr 2
      omega
    · simp only [createAll, List.length_cons, ih2]
      congr 2
      omega

theorem certificateText_small (j : Nat) (hj : j < 9) :
    certificateText (j + 1) = "000" ++ toString (j + 1) := by
  interval_cases j <;> decide

/-- C17 as stated fails for two calls: when both calls read the maximum of
the empty table before either inserts, both return "0001" and the table holds
"0001" twice. -/
theorem documentCreate_interleaving_counterexample :
    (runSchedule noFault "2024-04-01T09:00:00Z" [0, 1, 0, 1]
        ([CreateProc.start (sampleInput "" ""), CreateProc.start (sampleInput "" "")],
          emptyDB)).1.map procCertificateNo = [some "0001", some "0001"] ∧
    (runSchedule noFault "2024-04-01T09:00:00Z" [0, 1, 0, 1]
        ([CreateProc.start (sampleInput "" ""), CreateProc.start (sampleInput "" "")],
          emptyDB)).2.documents.map (fun d => d.CertificateNo) = [some "0001", some "0001"] := by
  constructor <;> decide

/-- C17, amended: for every N with 1 <= N <= 9, N `documentCreate` calls
with blank certificate numbers on a store without documents, each for no
student or for a student of the registry and without storage errors, that run
one after the other (both steps of a call before the first step of the next)
return the certificate numbers "0001", ..., "000N" in this order and leave
exactly these numbers in the table; the schedule without interleaving of the
step model is the handler called N times in a row. -/
theorem documentCreate_serial_numbers (flt : Nat → Option String) (now : String) (db : DB)
    (inputs : List DocumentInput) (N : Nat) (hN1 : 1 ≤ N) (hN9 : N ≤ 9)
    (hlen : inputs.length = N) (hempty : db.documents = [])
    (h0 : flt 0 = none) (h1 : flt 1 = none) (h3 : flt 3 = none)
    (hblank : ∀ i ∈ inputs, i.CertificateNo = "" ∨ TrimSpace i.CertificateNo = "")
    (hstud : ∀ i ∈ inputs, TrimSpace i.StudentJSHSHIR = "" ∨
      ∃ s ∈ db.students, s.JSHSHIR = TrimSpace i.StudentJSHSHIR) :
    runSchedule flt now (serialSchedule 0 N) (inputs.map CreateProc.start, db) =
        ((createAll flt now db inputs).1.map CreateProc.done,
          (createAll flt now db inputs).2) ∧
      (runSchedule flt now (serialSchedule 0 N)
          (inputs.map CreateProc.start, db)).1.map procCertificateNo =
        (List.range N).map (fun j => some ("000" ++ toString (j + 1))) ∧
      (runSchedule flt now (serialSchedule 0 N)
          (inputs.map CreateProc.start, db)).2.documents.map (fun d => d.CertificateNo) =
        (List.range N).map (fun j => some ("000" ++ toString (j + 1))) := by
  have hrun : runSchedule flt now (serialSchedule 0 N) (inputs.map CreateProc.start, db) =
      ((createAll flt now db inputs).1.map CreateProc.done,
        (createAll flt now db inputs).2) := by
    have := runSchedule_serial flt now inputs [] db
    simpa [hlen] using this
  have hP : db.documents.map (fun d => d.CertificateNo) =
      (List.range 0).map (fun j => some (certificateText (j + 1))) := by
    rw [hempty]; rfl
  obtain ⟨hresp, hdocs⟩ := createAll_numbers flt now h0 h1 h3 inputs db 0 (by omega) hP
    hblank hstud
  have htext : (List.range N).map (fun j => some (certificateText (j + 1))) =
      (List.range N).map (fun j => some ("000" ++ toString (j + 1))) := by
    apply List.map_congr_left
    intro j hj
    rw [certificateText_small j (by have := List.mem_range.mp hj; omega)]
  refine ⟨hrun, ?_, ?_⟩
  · rw [hrun]
    simp only [List.map_map]
    have : (procCertificateNo ∘ CreateProc.done) = responseCertificateNo := rfl
    rw [this, hresp, hlen, ← htext]
    apply List.map_congr_left
    intro j _
    simp
  · rw [hrun]
    simp only
    rw [hdocs, hlen, Nat.zero_add, htext]

/-- Witness of C17: two calls in a row on the store without documents
return "0001" and "0002". -/
theorem documentCreate_serial_numbers_witness :
    (runSchedule noFault "2024-04-01T09:00:00Z" (serialSchedule 0 2)
        ([sampleInput "" "", sampleInput "12345678901234" ""].map CreateProc.start,
          emptyDB)).1.map procCertificateNo =
      (List.range 2).map (fun j => some ("000" ++ toString (j + 1))) ∧
    (List.range 2).map (fun j => some ("000" ++ toString (j + 1))) =
      [some "0001", some "0002"] :=
  ⟨(documentCreate_serial_numbers noFault "2024-04-01T09:00:00Z" emptyDB
      [sampleInput "" "", sampleInput "12345678901234" ""] 2 (by decide) (by decide) rfl rfl
      rfl rfl rfl (by decide) (by decide)).2.1,
   by decide⟩

end Traktor
